import Mathlib

/-!
# Verification of the Pstryk data-acquisition core

A shallow embedding, in Lean 4, of the Python sources under
`custom_components/pstryk/`:

* `pstryklib/utils.py`        — `decode_jwt`, `iso_utc`
* `pstryklib/power_usage.py`  — `PowerUsageFrame`, `PowerUsageDay`
* `pstryklib/power_cost.py`   — `PowerCostFrame`, `PowerCostDay`
* `pstryklib/pstryk_api_client.py` — token bookkeeping, `refresh_access`,
  `login`, `from_tokens`, `_get_json` (the 401-refresh-retry primitive)
* `time_utils.py`             — local-day-to-UTC window math (Europe/Warsaw)
* `coordinator.py`            — `_async_update_data` snapshot assembly

Python dynamic values that flow through the code are embedded as a `Json`
inductive; Python exceptions are embedded as `Option`/`Except`/error-code
results; the in-place mutation of the client object is embedded as explicit
state passing that also returns the post-state of a failing call (Python
mutates `self` before raising, and that partial mutation is observable).
Instants are embedded as integer microseconds (or rational seconds for JWT
claims) since the Unix epoch.
-/

namespace Pstryk

/-- Embedding of the Python/JSON values that flow through the decoders and
the client (`json.loads` results, `dict.get` defaults, dataclass fields).
`Json.null` plays the role of Python `None`; numbers are embedded as `ℚ`
(Python's int/float distinction is collapsed, which no claim depends on). -/
inductive Json where
  | null
  | bool (b : Bool)
  | num (q : ℚ)
  | str (s : String)
  | arr (elems : List Json)
  | obj (fields : List (String × Json))
deriving Repr

/-- Python truthiness (`bool(x)`) of an embedded value: `None`, `False`,
zero, the empty string and empty containers are falsy. -/
def pyTruthy : Json → Bool
  | .null => false
  | .bool b => b
  | .num q => q != 0
  | .str s => s != ""
  | .arr xs => !xs.isEmpty
  | .obj kvs => !kvs.isEmpty

/-- `dict` lookup on the field list of a JSON object, mirroring Python
`dict` semantics after `json.loads` (a duplicated key keeps the last
occurrence). -/
def dictGet (kvs : List (String × Json)) (k : String) : Option Json :=
  kvs.foldl (fun acc p => if p.1 = k then some p.2 else acc) none

/-- `d.get(k, default)` on a JSON object's field list. -/
def dictGetD (kvs : List (String × Json)) (k : String) (d : Json) : Json :=
  (dictGet kvs k).getD d

/-- `x or y` in Python: `x` when truthy, else `y`. -/
def pyOr (x y : Json) : Json := if pyTruthy x then x else y

/-- Characters stripped by Python `float(str)` around the number
(`str.strip()` whitespace). -/
def isPySpace (c : Char) : Bool :=
  c = ' ' || c = '\t' || c = '\n' || c = '\r' || c = '\x0b' || c = '\x0c'

def isDigitChar (c : Char) : Bool := '0' ≤ c && c ≤ '9'

def digitsToNat (ds : List Char) : Nat :=
  ds.foldl (fun a c => a * 10 + (c.toNat - 48)) 0

/-- Decimal parsing performed by Python `float(<str>)`: optional surrounding
whitespace, optional sign, digits with an optional fraction and an optional
exponent.  (`inf`/`nan` and digit-group underscores, which Lean's `ℚ` cannot
represent or which no claim exercises, are modelled as failures.) -/
def parsePyFloat (s : String) : Option ℚ :=
  let cs := (s.toList.dropWhile isPySpace).reverse.dropWhile isPySpace |>.reverse
  let (neg, cs) :=
    match cs with
    | '-' :: rest => (true, rest)
    | '+' :: rest => (false, rest)
    | _ => (false, cs)
  let intds := cs.takeWhile isDigitChar
  let cs := cs.drop intds.length
  let (fracds, cs) :=
    match cs with
    | '.' :: rest => (rest.takeWhile isDigitChar, rest.drop (rest.takeWhile isDigitChar).length)
    | _ => ([], cs)
  if intds.isEmpty && fracds.isEmpty then none else
  let mant : ℚ := digitsToNat intds + digitsToNat fracds / (10 : ℚ) ^ fracds.length
  let expPart : Option ℤ :=
    match cs with
    | [] => some 0
    | 'e' :: rest | 'E' :: rest =>
      let (eneg, rest) :=
        match rest with
        | '-' :: r => (true, r)
        | '+' :: r => (false, r)
        | _ => (false, rest)
      let eds := rest.takeWhile isDigitChar
      if eds.isEmpty || !(rest.drop eds.length).isEmpty then none
      else some (if eneg then -(digitsToNat eds : ℤ) else (digitsToNat eds : ℤ))
    | _ => none
  match expPart with
  | none => none
  | some e =>
    let v : ℚ := mant * (10 : ℚ) ^ e
    some (if neg then -v else v)

/-- Python `float(x)` on an embedded value: numbers pass through, booleans
coerce to 0/1, strings are parsed as decimals; everything else (`None`,
lists, dicts, unparsable strings) raises, embedded as `none`. -/
def pyFloat : Json → Option ℚ
  | .num q => some q
  | .bool b => some (if b then 1 else 0)
  | .str s => parsePyFloat s
  | _ => none

/-- Iterating a Python value (`for x in v`): lists yield their elements,
strings yield 1-character strings, dicts yield their keys; iterating
anything else raises `TypeError`, embedded as `none`. -/
def pyIter : Json → Option (List Json)
  | .arr xs => some xs
  | .str s => some (s.toList.map (fun c => Json.str (String.mk [c])))
  | .obj kvs => some (kvs.map (fun p => Json.str p.1))
  | _ => none

/-- Sequence a fallible decode over a list (a Python list comprehension
whose element decode may raise). -/
def listMapM {α β : Type} (f : α → Option β) : List α → Option (List β)
  | [] => some []
  | x :: xs => (f x).bind fun y => (listMapM f xs).map (y :: ·)

/-- `isinstance(x, dict)`. -/
def isJsonObj : Json → Bool
  | .obj _ => true
  | _ => false

/-- `x is None`. -/
def Json.isNull : Json → Bool
  | .null => true
  | _ => false

end Pstryk

namespace Pstryk

/-! ## `pstryklib/power_usage.py` -/

/-- `PowerUsageFrame` dataclass.  `start`/`end` hold whatever `d.get`
returned (the dataclass annotations are not enforced at runtime). -/
structure PowerUsageFrame where
  start : Json
  «end» : Json
  fae_usage : ℚ
  rae : ℚ
  energy_balance : ℚ
deriving Repr

namespace PowerUsageFrame

/-- `float(d.get(key, 0) or 0)` — missing or falsy values become `0`;
`float` itself may raise (e.g. on a non-numeric string), which fails the
whole decode, embedded as `none`. -/
def numField (kvs : List (String × Json)) (k : String) : Option ℚ :=
  pyFloat (pyOr (dictGetD kvs k (Json.num 0)) (Json.num 0))

/-- `PowerUsageFrame.from_dict`.  A non-dict argument raises
(`AttributeError` on `.get`), embedded as `none`. -/
def from_dict : Json → Option PowerUsageFrame
  | .obj kvs => do
    let fae ← numField kvs "fae_usage"
    let rae ← numField kvs "rae"
    let eb ← numField kvs "energy_balance"
    some ⟨dictGetD kvs "start" .null, dictGetD kvs "end" .null, fae, rae, eb⟩
  | _ => none

end PowerUsageFrame

/-- `PowerUsageDay` dataclass. -/
structure PowerUsageDay where
  frames : List PowerUsageFrame
  fae_total_usage : ℚ
  rae_total : ℚ
  energy_balance : ℚ
deriving Repr

namespace PowerUsageDay

/-- `PowerUsageDay.from_api_dict`: iterates `(d or {}).get("frames") or []`
keeping only dict elements, and decodes the three totals with the same
`float(… or 0)` policy as the frames.  Iterating a truthy non-iterable
`frames` value, or a `float` failure anywhere, raises (`none`). -/
def from_api_dict (d : Json) : Option PowerUsageDay := do
  let d' := pyOr d (Json.obj [])
  match d' with
  | .obj kvs => do
    let framesRaw := pyOr (dictGetD kvs "frames" .null) (Json.arr [])
    let elems ← pyIter framesRaw
    let frames ← listMapM PowerUsageFrame.from_dict (elems.filter isJsonObj)
    let fae ← PowerUsageFrame.numField kvs "fae_total_usage"
    let rae ← PowerUsageFrame.numField kvs "rae_total"
    let eb ← PowerUsageFrame.numField kvs "energy_balance"
    some ⟨frames, fae, rae, eb⟩
  | _ => none

end PowerUsageDay

/-! ## `pstryklib/power_cost.py` -/

/-- `PowerCostFrame` dataclass.  All value fields hold the result of the
local helper `f`, which is a float on success and otherwise the original
value (or `0.0` for `None`/`""`), so they are embedded as `Json`. -/
structure PowerCostFrame where
  start : Json
  «end» : Json
  fae_cost : Json
  var_dist_cost_net : Json
  fix_dist_cost_net : Json
  energy_cost_net : Json
  service_cost_net : Json
  excise : Json
  vat : Json
  energy_sold_value : Json
  energy_balance_value : Json
deriving Repr

namespace PowerCostFrame

/-- The `f` helper of `PowerCostFrame.from_dict`:
`try: float(x) except: 0.0 if x in (None, "") else x`. -/
def f (x : Json) : Json :=
  match pyFloat x with
  | some q => .num q
  | none =>
    match x with
    | .null => .num 0
    | .str "" => .num 0
    | _ => x

/-- `PowerCostFrame.from_dict`: total on dicts (every coercion failure is
caught by `f`); a non-dict argument raises (`none`). -/
def from_dict : Json → Option PowerCostFrame
  | .obj kvs =>
    some ⟨dictGetD kvs "start" .null, dictGetD kvs "end" .null,
      f (dictGetD kvs "fae_cost" .null),
      f (dictGetD kvs "var_dist_cost_net" .null),
      f (dictGetD kvs "fix_dist_cost_net" .null),
      f (dictGetD kvs "energy_cost_net" .null),
      f (dictGetD kvs "service_cost_net" .null),
      f (dictGetD kvs "excise" .null),
      f (dictGetD kvs "vat" .null),
      f (dictGetD kvs "energy_sold_value" .null),
      f (dictGetD kvs "energy_balance_value" .null)⟩
  | _ => none

end PowerCostFrame

/-- `PowerCostDay` dataclass, with the twelve provider-supplied totals. -/
structure PowerCostDay where
  frames : List PowerCostFrame
  fae_total_cost : Json
  total_energy_sold_value : Json
  total_energy_balance_value : Json
  total_sales_cost_net : Json
  total_service_cost_net : Json
  total_dist_cost_net : Json
  total_excise : Json
  total_vat : Json
  total_energy_cost_with_service : Json
  total_var_dist_cost_net : Json
  total_fix_dist_cost_net : Json
  total_energy_cost_net : Json
deriving Repr

namespace PowerCostDay

/-- The `f` helper of `PowerCostDay.from_dict`:
`try: float(x) except: None if x is None else x`, whose except branch is
the identity (it returns `x` in both arms). -/
def f (x : Json) : Json :=
  match pyFloat x with
  | some q => .num q
  | none => x

/-- `PowerCostDay.from_dict`: decodes `data.get("frames") or []` keeping
only dict elements (each of which decodes totally), and passes every
total through `f`.  Raises only when `data` is not a dict or `frames` is
a truthy non-iterable (`none`). -/
def from_dict : Json → Option PowerCostDay
  | .obj kvs => do
    let elems ← pyIter (pyOr (dictGetD kvs "frames" .null) (Json.arr []))
    let frames ← listMapM PowerCostFrame.from_dict (elems.filter isJsonObj)
    some ⟨frames,
      f (dictGetD kvs "fae_total_cost" .null),
      f (dictGetD kvs "total_energy_sold_value" .null),
      f (dictGetD kvs "total_energy_balance_value" .null),
      f (dictGetD kvs "total_sales_cost_net" .null),
      f (dictGetD kvs "total_service_cost_net" .null),
      f (dictGetD kvs "total_dist_cost_net" .null),
      f (dictGetD kvs "total_excise" .null),
      f (dictGetD kvs "total_vat" .null),
      f (dictGetD kvs "total_energy_cost_with_service" .null),
      f (dictGetD kvs "total_var_dist_cost_net" .null),
      f (dictGetD kvs "total_fix_dist_cost_net" .null),
      f (dictGetD kvs "total_energy_cost_net" .null)⟩
  | _ => none

end PowerCostDay

/-! ## Calendar arithmetic

Dates are embedded as epoch day numbers (days since 1970-01-01); instants
as microseconds since the Unix epoch.  The proleptic Gregorian calendar is
embedded from 1970 on, which covers every date the integration can resolve
as "today". -/

/-- Gregorian leap-year rule (as applied by Python's `datetime`). -/
def isLeap (y : ℕ) : Bool := (y % 4 = 0 && y % 100 ≠ 0) || y % 400 = 0

/-- Number of leap years in `[1, y]` (proleptic Gregorian). -/
def leapCount (y : ℕ) : ℕ := y / 4 - y / 100 + y / 400

/-- Epoch day number of January 1st of year `y` (for `y ≥ 1970`);
`leapCount 1969 = 477` leap years precede 1970. -/
def epochOfYear (y : ℕ) : ℕ := 365 * (y - 1970) + (leapCount (y - 1) - 477)

/-- The year an epoch day falls in: linear search from 1970, fuelled by the
day number (a year has at least 365 days, so the fuel suffices). -/
def yearOfAux (d : ℕ) : ℕ → ℕ → ℕ
  | 0, y => y
  | fuel + 1, y => if epochOfYear (y + 1) ≤ d then yearOfAux d fuel (y + 1) else y

def yearOf (d : ℕ) : ℕ := yearOfAux d (d + 1) 1970

/-- Length of month `m` (1–12). -/
def monthLen (leap : Bool) : ℕ → ℕ
  | 1 => 31 | 2 => if leap then 29 else 28 | 3 => 31 | 4 => 30
  | 5 => 31 | 6 => 30 | 7 => 31 | 8 => 31
  | 9 => 30 | 10 => 31 | 11 => 30 | 12 => 31
  | _ => 0

/-- Days before month `m` within a year (`cumDays leap 1 = 0`). -/
def cumDays (leap : Bool) : ℕ → ℕ
  | 0 => 0
  | m + 1 => if m = 0 then 0 else cumDays leap m + monthLen leap m

/-- The month (1–12) a 0-based day-of-year falls in. -/
def monthOfAux (leap : Bool) (doy : ℕ) : ℕ → ℕ → ℕ
  | 0, m => m
  | fuel + 1, m =>
    if m < 12 && cumDays leap (m + 1) ≤ doy then monthOfAux leap doy fuel (m + 1) else m

def monthOf (leap : Bool) (doy : ℕ) : ℕ := monthOfAux leap doy 12 1

/-- Epoch day → (year, month, day-of-month), all 1-based. -/
def civilFromDays (d : ℕ) : ℕ × ℕ × ℕ :=
  let y := yearOf d
  let doy := d - epochOfYear y
  let m := monthOf (isLeap y) doy
  (y, m, doy - cumDays (isLeap y) m + 1)

/-- (year, month, day-of-month) → epoch day; the independent re-encoding
used to state that `civilFromDays` names the right calendar date. -/
def daysFromCivil (y m dom : ℕ) : ℕ :=
  epochOfYear y + cumDays (isLeap y) m + (dom - 1)

/-! ## `time_utils.py` — Europe/Warsaw and the day windows -/

/-- Day of week of an epoch day, Sunday = 0 (1970-01-01 was a Thursday). -/
def dow (d : ℕ) : ℕ := (d + 4) % 7

/-- Epoch day of the last Sunday on or before `d`. -/
def lastSundayOnOrBefore (d : ℕ) : ℕ := d - dow d

/-- Epoch day of March 31 of year `y`. -/
def march31 (y : ℕ) : ℕ := epochOfYear y + 89 + (if isLeap y then 1 else 0)

/-- Epoch day of October 31 of year `y`. -/
def oct31 (y : ℕ) : ℕ := epochOfYear y + 303 + (if isLeap y then 1 else 0)

/-- EU DST start (last Sunday of March) for year `y`. -/
def springDay (y : ℕ) : ℕ := lastSundayOnOrBefore (march31 y)

/-- EU DST end (last Sunday of October) for year `y`. -/
def fallDay (y : ℕ) : ℕ := lastSundayOnOrBefore (oct31 y)

/-- Whether Europe/Warsaw is on DST at the local wall-clock instant given
by epoch day `d` and microsecond-of-day `us`, for a `fold=0` datetime as
built by `time_utils.py`.  Embeds `zoneinfo.ZoneInfo("Europe/Warsaw")`
under the current EU rule (clocks move at 02:00→03:00 local on the last
Sunday of March and 03:00→02:00 local on the last Sunday of October;
`fold=0` resolves the ambiguous fall-back hour to the earlier, DST,
offset).  The rule is extrapolated to every modelled year, an
approximation for years before 1996 that no claim depends on. -/
def isDstWall (d : ℕ) (us : ℕ) : Bool :=
  let y := yearOf d
  (springDay y < d || (d = springDay y && 10800000000 ≤ us)) &&
  (d < fallDay y || (d = fallDay y && us < 10800000000))

/-- UTC offset (microseconds) of Europe/Warsaw at a local wall instant:
CEST (+2 h) on DST, CET (+1 h) otherwise. -/
def warsawOffset (d : ℕ) (us : ℕ) : ℤ := if isDstWall d us then 7200000000 else 3600000000

/-- `astimezone(timezone.utc)` on the aware local datetime (day `d`,
microsecond-of-day `us`, Europe/Warsaw): UTC microseconds since epoch. -/
def localWallToUtc (d : ℕ) (us : ℕ) : ℤ :=
  ((d : ℤ) * 86400000000 + (us : ℤ)) - warsawOffset d us

/-- `local_day_window_utc(d)`: local midnight of `d` and local midnight of
`d + 1 day` (wall-clock arithmetic on the aware datetime), both converted
to UTC. -/
def local_day_window_utc (d : ℕ) : ℤ × ℤ :=
  (localWallToUtc d 0, localWallToUtc (d + 1) 0)

/-- `local_day_window_utc_ms(d)`: local midnight of `d` and local midnight
of `d + 1 day` minus one millisecond — the wall instant 23:59:59.999 of
day `d` — both converted to UTC. -/
def local_day_window_utc_ms (d : ℕ) : ℤ × ℤ :=
  (localWallToUtc d 0, localWallToUtc d 86399999000)

/-! ## `pstryklib/utils.py` — `iso_utc` -/

/-- Decimal rendering of `n` left-padded with zeros to `w` digits
(`datetime.isoformat` field widths). -/
def padNum (w n : ℕ) : String :=
  let s := toString n
  String.mk (List.replicate (w - s.length) '0') ++ s

/-- `YYYY-MM-DDTHH:MM:SS` from the six civil fields
(`datetime.isoformat` layout, seconds precision). -/
def isoRender (y mo dd h mi s : ℕ) : String :=
  padNum 4 y ++ "-" ++ padNum 2 mo ++ "-" ++ padNum 2 dd ++ "T" ++
    padNum 2 h ++ ":" ++ padNum 2 mi ++ ":" ++ padNum 2 s

/-- `YYYY-MM-DDTHH:MM:SS` rendering of a whole-second UTC instant, as
produced by `datetime.isoformat()` for a microsecond-free datetime
(before its fixed `+00:00` offset suffix). -/
def isoCore (sec : ℕ) : String :=
  let d := sec / 86400
  let s := sec % 86400
  let c := civilFromDays d
  isoRender c.1 c.2.1 c.2.2 (s / 3600) (s % 3600 / 60) (s % 60)

/-- `iso_utc(dt)` of `utils.py` on an aware datetime holding the instant
`usec` (microseconds since epoch): `dt.astimezone(timezone.utc)` keeps the
instant, `.replace(microsecond=0)` truncates it to whole seconds, and
`.isoformat().replace("+00:00", "Z")` swaps the offset suffix — the only
occurrence of `"+00:00"` in the rendered string — for `"Z"`. -/
def iso_utc (usec : ℕ) : String := isoCore (usec / 1000000) ++ "Z"

/-- `datetime.isoformat()` of a UTC instant with its microseconds, as used
for the snapshot timestamp `now_utc.isoformat()` in `coordinator.py`
(the `.ffffff` part is omitted when the microsecond field is zero). -/
def isoformatUtc (usec : ℕ) : String :=
  isoCore (usec / 1000000) ++
    (if usec % 1000000 = 0 then "" else "." ++ padNum 6 (usec % 1000000)) ++ "+00:00"

/-- `iso_utc` as applied by `coordinator.py` to the window instants (which
are non-negative for every modelled date). -/
def iso_utcInt (t : ℤ) : String := iso_utc t.toNat

/-! ## Query parameters of the client's windowed GET endpoints
(`pstryk_api_client.py`).  The `params` dicts are embedded as ordered
key/value lists exactly as built in the source; `urlencode` then
percent-encodes them into the URL's query string, an encoding the provider
inverts, so the parameter *values* are what the claims speak about. -/

def get_pricing_buy_params (meter_id : ℤ) (ws we : ℕ) (resolution : String) :
    List (String × String) :=
  [("meter_id", toString meter_id), ("window_start", iso_utc ws),
   ("window_end", iso_utc we), ("resolution", resolution)]

def get_pricing_sell_params (ws we : ℕ) (resolution : String) :
    List (String × String) :=
  [("window_start", iso_utc ws), ("window_end", iso_utc we), ("resolution", resolution)]

def get_power_usage_params (ws we : ℕ) (resolution : String) :
    List (String × String) :=
  [("resolution", resolution), ("window_start", iso_utc ws), ("window_end", iso_utc we)]

def get_power_cost_params (ws we : ℕ) (resolution : String) :
    List (String × String) :=
  [("resolution", resolution), ("window_start", iso_utc ws), ("window_end", iso_utc we)]

/-! ## `pstryklib/utils.py` — `decode_jwt`

`base64.urlsafe_b64decode` (with the padding correction the source applies
first), UTF-8 decoding, and `json.loads`, all embedded as total functions
into `Option`; any failure along the pipeline is the `ValueError` the
source re-raises. -/

/-- Value of a base64 alphabet character (`urlsafe_b64decode` translates
`-`/`_` to `+`/`/` and then also accepts the standard pair). -/
def b64Val (c : Char) : Option ℕ :=
  if 'A' ≤ c ∧ c ≤ 'Z' then some (c.toNat - 65)
  else if 'a' ≤ c ∧ c ≤ 'z' then some (c.toNat - 97 + 26)
  else if '0' ≤ c ∧ c ≤ '9' then some (c.toNat - 48 + 52)
  else if c = '-' ∨ c = '+' then some 62
  else if c = '_' ∨ c = '/' then some 63
  else none

/-- Decode base64 quartets into bytes; `=` padding may close the final
quartet (two or three data characters).  Anything else — a quartet
containing misplaced padding or a trailing partial quartet — is the
`binascii` error the source converts into a `ValueError`. -/
def b64Quartets : List Char → Option (List ℕ)
  | [] => some []
  | c1 :: c2 :: c3 :: c4 :: rest => do
    let a ← b64Val c1
    let b ← b64Val c2
    if c3 = '=' then
      if c4 = '=' ∧ rest = [] then some [a * 4 + b / 16] else none
    else do
      let c ← b64Val c3
      if c4 = '=' then
        if rest = [] then some [a * 4 + b / 16, b % 16 * 16 + c / 4] else none
      else do
        let d ← b64Val c4
        let tail ← b64Quartets rest
        some ((a * 4 + b / 16) :: (b % 16 * 16 + c / 4) :: (c % 4 * 64 + d) :: tail)
  | _ => none

/-- The payload-segment decode performed by `decode_jwt`: pad with `=` to a
multiple of four (computed from the raw length, as in the source), discard
characters outside the alphabet (`b64decode` runs with `validate=False`),
and decode the quartets. -/
def b64urlDecode (s : String) : Option (List ℕ) :=
  let rem := s.length % 4
  let padded := s.toList ++ List.replicate (if rem = 0 then 0 else 4 - rem) '='
  b64Quartets (padded.filter (fun c => (b64Val c).isSome || c = '='))

/-- UTF-8 decoding of a byte list (`bytes.decode("utf-8")`): rejects
stray continuation bytes, overlong forms, surrogates and out-of-range
code points, as CPython does.  Fuelled (each step consumes at least one
byte, so the list's length suffices). -/
def utf8DecodeAux : ℕ → List ℕ → Option (List Char)
  | _, [] => some []
  | 0, _ :: _ => none
  | fuel + 1, b :: rest =>
    if b < 0x80 then
      (utf8DecodeAux fuel rest).map (Char.ofNat b :: ·)
    else if b < 0xC2 then none
    else if b < 0xE0 then
      match rest with
      | b2 :: r =>
        if 0x80 ≤ b2 ∧ b2 < 0xC0 then
          (utf8DecodeAux fuel r).map (Char.ofNat ((b - 0xC0) * 64 + (b2 - 0x80)) :: ·)
        else none
      | _ => none
    else if b < 0xF0 then
      match rest with
      | b2 :: b3 :: r =>
        if (0x80 ≤ b2 ∧ b2 < 0xC0) ∧ (0x80 ≤ b3 ∧ b3 < 0xC0) ∧
            (b = 0xE0 → 0xA0 ≤ b2) ∧ (b = 0xED → b2 < 0xA0) then
          (utf8DecodeAux fuel r).map
            (Char.ofNat ((b - 0xE0) * 4096 + (b2 - 0x80) * 64 + (b3 - 0x80)) :: ·)
        else none
      | _ => none
    else if b < 0xF5 then
      match rest with
      | b2 :: b3 :: b4 :: r =>
        if (0x80 ≤ b2 ∧ b2 < 0xC0) ∧ (0x80 ≤ b3 ∧ b3 < 0xC0) ∧ (0x80 ≤ b4 ∧ b4 < 0xC0) ∧
            (b = 0xF0 → 0x90 ≤ b2) ∧ (b = 0xF4 → b2 < 0x90) then
          (utf8DecodeAux fuel r).map
            (Char.ofNat ((b - 0xF0) * 262144 + (b2 - 0x80) * 4096 +
              (b3 - 0x80) * 64 + (b4 - 0x80)) :: ·)
        else none
      | _ => none
    else none

def utf8Decode (bs : List ℕ) : Option (List Char) := utf8DecodeAux bs.length bs

/-- JSON whitespace (`json.loads`). -/
def skipWs (cs : List Char) : List Char :=
  cs.dropWhile (fun c => c = ' ' || c = '\t' || c = '\n' || c = '\r')

/-- One JSON number (strict `json` grammar: optional `-`, no leading
zeros, optional fraction and exponent), as a rational. -/
def parseJsonNum : List Char → Option (ℚ × List Char) := fun cs =>
  let (neg, cs) := match cs with | '-' :: r => (true, r) | _ => (false, cs)
  let intds := cs.takeWhile isDigitChar
  if intds.isEmpty then none
  else if intds.length > 1 ∧ intds.headD '0' = '0' then none
  else
    let cs := cs.drop intds.length
    let fracRes : Option (List Char × List Char) :=
      match cs with
      | '.' :: r =>
        let ds := r.takeWhile isDigitChar
        if ds.isEmpty then none else some (ds, r.drop ds.length)
      | _ => some ([], cs)
    match fracRes with
    | none => none
    | some (fracds, cs) =>
      let (expOk, e, cs) :=
        match cs with
        | 'e' :: r | 'E' :: r =>
          let (eneg, r) := match r with | '-' :: r' => (true, r') | '+' :: r' => (false, r') | _ => (false, r)
          let eds := r.takeWhile isDigitChar
          if eds.isEmpty then (false, (0 : ℤ), r)
          else ((true : Bool), (if eneg then -(digitsToNat eds : ℤ) else (digitsToNat eds : ℤ)), r.drop eds.length)
        | _ => (true, 0, cs)
      if !expOk then none
      else
        let mant : ℚ := digitsToNat intds + digitsToNat fracds / (10 : ℚ) ^ fracds.length
        let v := mant * (10 : ℚ) ^ e
        some (if neg then -v else v, cs)

/-- Four hex digits (a `\uXXXX` escape). -/
def hex4 : List Char → Option (ℕ × List Char)
  | c1 :: c2 :: c3 :: c4 :: rest => do
    let hv : Char → Option ℕ := fun c =>
      if '0' ≤ c ∧ c ≤ '9' then some (c.toNat - 48)
      else if 'a' ≤ c ∧ c ≤ 'f' then some (c.toNat - 87)
      else if 'A' ≤ c ∧ c ≤ 'F' then some (c.toNat - 55)
      else none
    let a ← hv c1; let b ← hv c2; let c ← hv c3; let d ← hv c4
    some (a * 4096 + b * 256 + c * 16 + d, rest)
  | _ => none

/-- The body of a JSON string after the opening quote, with escapes;
`\uDXXX` surrogate pairs are combined (a lone surrogate, which Python
would keep as an unpaired code unit no `Char` can hold, is rejected — no
token any claim touches contains one). -/
def parseJsonStr : ℕ → List Char → Option (List Char × List Char)
  | 0, _ => none
  | _ + 1, [] => none
  | fuel + 1, c :: rest =>
    if c = '"' then some ([], rest)
    else if c = '\\' then
      match rest with
      | [] => none
      | e :: rest' =>
        let simpleEsc : Option Char :=
          if e = '"' then some '"' else if e = '\\' then some '\\'
          else if e = '/' then some '/' else if e = 'b' then some '\x08'
          else if e = 'f' then some '\x0c' else if e = 'n' then some '\n'
          else if e = 'r' then some '\r' else if e = 't' then some '\t'
          else none
        match simpleEsc with
        | some ch => (parseJsonStr fuel rest').map (fun p => (ch :: p.1, p.2))
        | none =>
          if e = 'u' then do
            let (n, rest'') ← hex4 rest'
            if n < 0xD800 ∨ 0xE000 ≤ n then
              (parseJsonStr fuel rest'').map (fun p => (Char.ofNat n :: p.1, p.2))
            else if n < 0xDC00 then
              match rest'' with
              | '\\' :: 'u' :: rest3 => do
                let (lo, rest4) ← hex4 rest3
                if 0xDC00 ≤ lo ∧ lo < 0xE000 then
                  (parseJsonStr fuel rest4).map
                    (fun p => (Char.ofNat (0x10000 + (n - 0xD800) * 1024 + (lo - 0xDC00)) :: p.1, p.2))
                else none
              | _ => none
            else none
          else none
    else if c.toNat < 0x20 then none
    else (parseJsonStr fuel rest).map (fun p => (c :: p.1, p.2))

mutual

/-- One JSON value (`json.loads` grammar), fuelled. -/
def parseJsonVal : ℕ → List Char → Option (Json × List Char)
  | 0, _ => none
  | fuel + 1, cs =>
    match skipWs cs with
    | 'n' :: 'u' :: 'l' :: 'l' :: rest => some (.null, rest)
    | 't' :: 'r' :: 'u' :: 'e' :: rest => some (.bool true, rest)
    | 'f' :: 'a' :: 'l' :: 's' :: 'e' :: rest => some (.bool false, rest)
    | '"' :: rest => (parseJsonStr (rest.length + 1) rest).map (fun p => (.str (String.mk p.1), p.2))
    | '[' :: rest =>
      (match skipWs rest with
       | ']' :: rest' => some (.arr [], rest')
       | _ => (parseJsonArr fuel rest).map (fun p => (.arr p.1, p.2)))
    | '{' :: rest =>
      (match skipWs rest with
       | '}' :: rest' => some (.obj [], rest')
       | _ => (parseJsonObj fuel rest).map (fun p => (.obj p.1, p.2)))
    | cs' => (parseJsonNum cs').map (fun p => (.num p.1, p.2))

/-- Comma-separated array elements, up to the closing bracket. -/
def parseJsonArr : ℕ → List Char → Option (List Json × List Char)
  | 0, _ => none
  | fuel + 1, cs => do
    let (v, rest) ← parseJsonVal fuel cs
    match skipWs rest with
    | ',' :: rest' => (parseJsonArr fuel rest').map (fun p => (v :: p.1, p.2))
    | ']' :: rest' => some ([v], rest')
    | _ => none

/-- Comma-separated `"key": value` members, up to the closing brace. -/
def parseJsonObj : ℕ → List Char → Option (List (String × Json) × List Char)
  | 0, _ => none
  | fuel + 1, cs => do
    match skipWs cs with
    | '"' :: rest => do
      let (k, rest1) ← parseJsonStr (rest.length + 1) rest
      match skipWs rest1 with
      | ':' :: rest2 => do
        let (v, rest3) ← parseJsonVal fuel rest2
        match skipWs rest3 with
        | ',' :: rest4 => (parseJsonObj fuel rest4).map (fun p => ((String.mk k, v) :: p.1, p.2))
        | '}' :: rest4 => some ([(String.mk k, v)], rest4)
        | _ => none
      | _ => none
    | _ => none

end

/-- `json.loads`: one value with surrounding whitespace and nothing else. -/
def jsonLoads (s : String) : Option Json :=
  match parseJsonVal (2 * s.length + 4) s.toList with
  | some (j, rest) => if skipWs rest = [] then some j else none
  | none => none

/-- `token.split(".")` on the character list (Python `str.split` with a
one-character separator). -/
def splitOnDot : List Char → List (List Char)
  | [] => [[]]
  | c :: rest =>
    if c = '.' then [] :: splitOnDot rest
    else
      match splitOnDot rest with
      | t :: ts => (c :: t) :: ts
      | [] => [[c]]

/-- `decode_jwt(token)` of `utils.py`: reject an empty token, split on
`.` into exactly three parts, base64url-decode the middle part with
padding correction, UTF-8-decode it and parse it as JSON.  Every failure
is the `ValueError` the source raises, embedded as `none`. -/
def decode_jwt (token : String) : Option Json :=
  if token = "" then none
  else
    match splitOnDot token.toList with
    | [_, payload, _] => (b64urlDecode (String.mk payload)).bind fun bs =>
        (utf8Decode bs).bind fun chars => jsonLoads (String.mk chars)
    | _ => none

/-! ## `pstryklib/pstryk_api_client.py` — client state and token lifecycle -/

/-- The mutable fields of `PstrykApiClient` that the token lifecycle
touches.  `user_id` holds whatever `data.get("user_id")` returned and is
embedded as `Json` (`Json.null` is Python `None`); the four bookkeeping
instants are rational Unix seconds (`datetime.fromtimestamp(…, utc)`). -/
structure ClientState where
  email : Option String
  password : Option String
  access_token : Option String
  refresh_token : Option String
  user_id : Json
  AccessIssuedAt : Option ℚ
  AccessExpires : Option ℚ
  RefreshIssuedAt : Option ℚ
  RefreshExpires : Option ℚ
deriving Repr

/-- `PstrykApiClient.__init__(email, password)`. -/
def clientInit (email password : Option String) : ClientState :=
  ⟨email, password, none, none, .null, none, none, none, none⟩

/-- The exceptions the client raises, by raise site (`RuntimeError`s and
the `ValueError` of `decode_jwt`); HTTP failures carry the status and the
`text[:200]` excerpt the message embeds. -/
inductive ApiError where
  | noAccessToken
  | noRefreshToken
  | refreshHttp (status : ℕ) (excerpt : String)
  | refreshNetwork
  | refreshNoAccess
  | loginHttp (status : ℕ) (excerpt : String)
  | loginNetwork
  | loginMissingFields
  | noCredentials
  | jwtDecode
  | payloadNotDict
  | dataNotDict
  | badTimestamp
  | getFailed (url : String) (status : ℕ) (excerpt : String)
  | getRetryFailed (url : String) (status : ℕ) (excerpt : String)
deriving Repr, DecidableEq

/-- `datetime.fromtimestamp(v, tz=timezone.utc)` on a `.get(claim, 0)`
result: numeric (or boolean) values give the instant, anything else is
the `TypeError` Python raises. -/
def fromtimestamp (v : Json) : Option ℚ := pyFloat' v
where
  /-- Unlike `float(str)`, `fromtimestamp` does not accept strings. -/
  pyFloat' : Json → Option ℚ
    | .num q => some q
    | .bool b => some (if b then 1 else 0)
    | _ => none

/-- `token.split(".")`… the result of a successful `decode_jwt` is used as
a dict: a non-dict payload raises `AttributeError` at the `.get` call
sites, so expose the field list. -/
def payloadFields : Json → Option (List (String × Json))
  | .obj kvs => some kvs
  | _ => none

/-- The two bookkeeping lines that follow every token decode:
`fromtimestamp(decoded.get("iat", 0))` and the same for `"exp"`.
Returns the two instants, or the error after the partial assignment the
caller must apply (the `iat` line executes before the `exp` line). -/
def tokenInstants (payload : Json) : Option (List (String × Json)) × Option ℚ × Option ℚ :=
  match payloadFields payload with
  | none => (none, none, none)
  | some kvs =>
    (some kvs, fromtimestamp (dictGetD kvs "iat" (.num 0)),
      fromtimestamp (dictGetD kvs "exp" (.num 0)))

/-- A canonical printed form standing in for a non-string Python value
stored where a token string is expected (an error-path corner: the
provider answering with a non-string `access`/`refresh` field).  Such a
value never survives `decode_jwt`, exactly as in Python. -/
def jsonAsTokenRepr : Json → String
  | .str s => s
  | j => toString (repr j)

/-- Response of one `POST` as the client sees it: `none` is an
`aiohttp.ClientError` (transport failure), otherwise the HTTP status,
the `resp.text()` body, and the `resp.json()` value. -/
def PostResponse := Option (ℕ × String × Json)

/-- `PstrykApiClient.refresh_access()`.  Because Python mutates `self`
field by field and may raise between assignments, the embedding returns
the post-state together with the optional exception; `none` in the second
component is a normal return. -/
def refresh_access (resp : PostResponse) (st : ClientState) : ClientState × Option ApiError :=
  match st.refresh_token with
  | none => (st, some .noRefreshToken)
  | some rt =>
    if rt = "" then (st, some .noRefreshToken)
    else
      match resp with
      | none => (st, some .refreshNetwork)
      | some (status, text, data) =>
        if status ≠ 200 then (st, some (.refreshHttp status (text.take 200)))
        else
          match data with
          | .obj dataKvs =>
          let new_access := dictGetD dataKvs "access" .null
          if !pyTruthy new_access then (st, some .refreshNoAccess)
          else
            let st := { st with access_token := some (jsonAsTokenRepr new_access) }
            match new_access with
            | .str a =>
              match decode_jwt a with
              | none => (st, some .jwtDecode)
              | some payload =>
                match tokenInstants payload with
                | (none, _, _) => (st, some .payloadNotDict)
                | (some _, none, _) => (st, some .badTimestamp)
                | (some _, some iat, none) =>
                  ({ st with AccessIssuedAt := some iat }, some .badTimestamp)
                | (some _, some iat, some exp_) =>
                  ({ st with
                      AccessIssuedAt := some iat,
                      AccessExpires := some exp_,
                      user_id := dictGetD dataKvs "user_id" .null }, none)
            | _ => (st, some .jwtDecode)
          | _ => (st, some .dataNotDict)

/-- `PstrykApiClient.from_tokens(access, refresh, user_id)`: build a fresh
client from persisted tokens, decoding both immediately; a decode (or
claim-coercion) failure raises and discards the object, so the embedding
is `Except`. -/
def from_tokens (access refresh : String) (user_id : Json) : Except ApiError ClientState :=
  let st := { clientInit none none with
    access_token := some access, refresh_token := some refresh, user_id := user_id }
  match decode_jwt access with
  | none => .error .jwtDecode
  | some payloadA =>
    match tokenInstants payloadA with
    | (none, _, _) => .error .payloadNotDict
    | (_, none, _) | (_, _, none) => .error .badTimestamp
    | (some _, some iatA, some expA) =>
      match decode_jwt refresh with
      | none => .error .jwtDecode
      | some payloadR =>
        match tokenInstants payloadR with
        | (none, _, _) => .error .payloadNotDict
        | (_, none, _) | (_, _, none) => .error .badTimestamp
        | (some _, some iatR, some expR) =>
          .ok { st with
            AccessIssuedAt := some iatA,
            AccessExpires := some expA,
            RefreshIssuedAt := some iatR,
            RefreshExpires := some expR }

/-- `PstrykApiClient.login()`: exchange email/password for tokens.  As with
`refresh_access`, the post-state is returned alongside the optional
exception because `self` is mutated before the response is validated. -/
def login (resp : PostResponse) (st : ClientState) : ClientState × Option ApiError :=
  let emailOk := match st.email with | some e => e ≠ "" | none => false
  let passOk := match st.password with | some p => p ≠ "" | none => false
  if !(emailOk && passOk) then (st, some .noCredentials)
  else
    match resp with
    | none => (st, some .loginNetwork)
    | some (status, text, data) =>
      if status ≠ 200 then (st, some (.loginHttp status (text.take 200)))
      else
        match data with
        | .obj dataKvs =>
        let refreshJ := dictGetD dataKvs "refresh" .null
        let accessJ := dictGetD dataKvs "access" .null
        let st := { st with
          refresh_token := if refreshJ.isNull then none else some (jsonAsTokenRepr refreshJ),
          access_token := if accessJ.isNull then none else some (jsonAsTokenRepr accessJ),
          user_id := dictGetD dataKvs "user_id" .null }
        if !pyTruthy accessJ || !pyTruthy refreshJ || st.user_id.isNull then
          (st, some .loginMissingFields)
        else
          match accessJ with
          | .str a =>
            match decode_jwt a with
            | none => (st, some .jwtDecode)
            | some payloadA =>
              match tokenInstants payloadA with
              | (none, _, _) => (st, some .payloadNotDict)
              | (some _, none, _) => (st, some .badTimestamp)
              | (some _, some iatA, none) =>
                ({ st with AccessIssuedAt := some iatA }, some .badTimestamp)
              | (some _, some iatA, some expA) =>
                let st := { st with AccessIssuedAt := some iatA, AccessExpires := some expA }
                match refreshJ with
                | .str r =>
                  match decode_jwt r with
                  | none => (st, some .jwtDecode)
                  | some payloadR =>
                    match tokenInstants payloadR with
                    | (none, _, _) => (st, some .payloadNotDict)
                    | (some _, none, _) => (st, some .badTimestamp)
                    | (some _, some iatR, none) =>
                      ({ st with RefreshIssuedAt := some iatR }, some .badTimestamp)
                    | (some _, some iatR, some expR) =>
                      ({ st with RefreshIssuedAt := some iatR, RefreshExpires := some expR }, none)
                | _ => (st, some .jwtDecode)
          | _ => (st, some .jwtDecode)
        | _ => (st, some .dataNotDict)

/-- The token-bookkeeping invariant of claim C10: the stored access
issued-at/expiry instants are `fromtimestamp` of the `iat`/`exp` claims
(defaulting to 0, the Unix epoch) of the decoded payload of exactly the
stored access token. -/
def accessInvariant (st : ClientState) : Prop :=
  ∃ a pk, st.access_token = some a ∧ decode_jwt a = some (Json.obj pk) ∧
    st.AccessIssuedAt = fromtimestamp (dictGetD pk "iat" (Json.num 0)) ∧
    st.AccessExpires = fromtimestamp (dictGetD pk "exp" (Json.num 0))

/-! ### `_get_json` — the 401-refresh-retry primitive -/

/-- One observable I/O action of `_get_json`: a GET (with the bearer token
it carried) or the one `refresh_access()` call. -/
inductive Event where
  | get (url : String) (token : String)
  | refreshCall
deriving Repr, DecidableEq

/-- Whether a trace event is an HTTP GET. -/
def Event.isGet : Event → Bool
  | .get _ _ => true
  | .refreshCall => false

/-- Whether a trace event is the `refresh_access()` call. -/
def Event.isRefresh : Event → Bool
  | .get _ _ => false
  | .refreshCall => true

/-- The remote side of one `_get_json` call: the response to the GET by
attempt index (0 = first request, 1 = the retry), URL and bearer token,
plus the response to the `POST /auth/token/refresh` should a refresh
happen. -/
structure GetEnv where
  get : ℕ → String → String → ℕ × String × Json
  refreshResp : PostResponse

/-- `PstrykApiClient._get_json(url)`: GET with a bearer header; 200
returns the body, a non-401 failure raises immediately, a 401 triggers
exactly one `refresh_access()` and one retried GET whose non-200 raises.
Returns the post-state, the result, and the trace of I/O events. -/
def getJson (env : GetEnv) (st : ClientState) (url : String) :
    ClientState × Except ApiError Json × List Event :=
  match st.access_token with
  | none => (st, .error .noAccessToken, [])
  | some tok =>
    if tok = "" then (st, .error .noAccessToken, [])
    else
      let (s1, t1, d1) := env.get 0 url tok
      if s1 = 200 then (st, .ok d1, [.get url tok])
      else if s1 ≠ 401 then
        (st, .error (.getFailed url s1 (t1.take 200)), [.get url tok])
      else
        match refresh_access env.refreshResp st with
        | (st2, some e) => (st2, .error e, [.get url tok, .refreshCall])
        | (st2, none) =>
          match st2.access_token with
          | none => (st2, .error .noAccessToken, [.get url tok, .refreshCall])
          | some tok2 =>
            if tok2 = "" then (st2, .error .noAccessToken, [.get url tok, .refreshCall])
            else
              let (s2, t2, d2) := env.get 1 url tok2
              if s2 ≠ 200 then
                (st2, .error (.getRetryFailed url s2 (t2.take 200)),
                  [.get url tok, .refreshCall, .get url tok2])
              else (st2, .ok d2, [.get url tok, .refreshCall, .get url tok2])

/-! ## `coordinator.py` — `PstrykCoordinator._async_update_data`

The five per-meter sub-fetches and the meter-list fetch are embedded as an
environment of `Except`-valued calls (an `error` is any exception the
client raised); the aggregator's `try/except` blocks turn errors into
`none` slot fields.  The payloads the coordinator never inspects (alert
lists, buy/sell price-frame lists) are type parameters; usage/cost days
are the decoded records because the coordinator projects their fields. -/

/-- The one attribute of a decoded meter the coordinator reads:
`getattr(m, "id", None)` — `Meter.from_dict` fills `id` with
`data.get("id")`, which may be `None`.  The dataclass's fifteen other
fields are payload the aggregator carries opaquely and are not modelled. -/
structure Meter where
  id : Option ℤ
deriving Repr, DecidableEq

/-- The `power_usage_totals` dict built from a `PowerUsageDay`. -/
structure UsageTotals where
  fae_total_usage : ℚ
  rae_total : ℚ
  energy_balance : ℚ
deriving Repr

/-- The `power_cost_totals` dict built from a `PowerCostDay`. -/
structure CostTotals where
  fae_total_cost : Json
  total_energy_sold_value : Json
  total_energy_balance_value : Json
  total_sales_cost_net : Json
  total_service_cost_net : Json
  total_dist_cost_net : Json
  total_excise : Json
  total_vat : Json
  total_energy_cost_with_service : Json
  total_var_dist_cost_net : Json
  total_fix_dist_cost_net : Json
  total_energy_cost_net : Json
deriving Repr

/-- One `per_meter[mid]` slot.  Python writes all seven keys on every
pass, each either the fetched value or `None` on that sub-fetch's
failure, so a slot field is `Option`-valued with `none` as the explicit
absent marker (never a missing key). -/
structure Slot (α β γ : Type) where
  alerts : Option α
  pricing_buy : Option β
  pricing_sell : Option γ
  power_usage_frames : Option (List PowerUsageFrame)
  power_usage_totals : Option UsageTotals
  power_cost_frames : Option (List PowerCostFrame)
  power_cost_totals : Option CostTotals

/-- The client calls one refresh cycle makes, with their outcomes.  The
windowed calls receive the UTC window bounds the coordinator computed. -/
structure CoordEnv (α β γ : Type) where
  get_meters : Except String (List Meter)
  get_full_price_alerts : ℤ → Except String α
  get_pricing_buy : ℤ → ℤ × ℤ → Except String β
  get_pricing_sell : ℤ × ℤ → Except String γ
  get_power_usage_day : ℤ → ℤ × ℤ → Except String PowerUsageDay
  get_power_cost_day : ℤ → ℤ × ℤ → Except String PowerCostDay

/-- The `power_usage_totals` dict assembled from a fetched day. -/
def usageTotalsOf (pud : PowerUsageDay) : UsageTotals :=
  ⟨pud.fae_total_usage, pud.rae_total, pud.energy_balance⟩

/-- The `power_cost_totals` dict assembled from a fetched day. -/
def costTotalsOf (pcd : PowerCostDay) : CostTotals :=
  ⟨pcd.fae_total_cost, pcd.total_energy_sold_value, pcd.total_energy_balance_value,
    pcd.total_sales_cost_net, pcd.total_service_cost_net, pcd.total_dist_cost_net,
    pcd.total_excise, pcd.total_vat, pcd.total_energy_cost_with_service,
    pcd.total_var_dist_cost_net, pcd.total_fix_dist_cost_net, pcd.total_energy_cost_net⟩

/-- The body of the per-meter loop: five individually `try`-wrapped
sub-fetches filling one slot. -/
def processMeter {α β γ : Type} (env : CoordEnv α β γ) (mid : ℤ)
    (buyWin usageWin : ℤ × ℤ) : Slot α β γ :=
  { alerts := (env.get_full_price_alerts mid).toOption
    pricing_buy := (env.get_pricing_buy mid buyWin).toOption
    pricing_sell := (env.get_pricing_sell buyWin).toOption
    power_usage_frames :=
      match env.get_power_usage_day mid usageWin with
      | .ok pud => some pud.frames
      | .error _ => none
    power_usage_totals :=
      match env.get_power_usage_day mid usageWin with
      | .ok pud => some (usageTotalsOf pud)
      | .error _ => none
    power_cost_frames :=
      match env.get_power_cost_day mid usageWin with
      | .ok pcd => some pcd.frames
      | .error _ => none
    power_cost_totals :=
      match env.get_power_cost_day mid usageWin with
      | .ok pcd => some (costTotalsOf pcd)
      | .error _ => none }

/-- `per_meter[mid] = slot` with `dict` semantics: reassigning an existing
key replaces its value in place, a new key is appended. -/
def dictInsert {α : Type} (m : List (ℤ × α)) (k : ℤ) (v : α) : List (ℤ × α) :=
  if m.any (fun p => p.1 = k) then m.map (fun p => if p.1 = k then (k, v) else p)
  else m ++ [(k, v)]

/-- The snapshot dict `_async_update_data` returns. -/
structure Snapshot (α β γ : Type) where
  ts_utc : String
  user_id : Json
  meters : List Meter
  per_meter : List (ℤ × Slot α β γ)
  windows_buy : String × String
  windows_sell : String × String
  windows_usage : String × String
  windows_cost : String × String

/-- `PstrykCoordinator._async_update_data()`, with the ambient facts it
reads — `now_utc` (microseconds) and `today_local` (epoch day of
`datetime.now(euwarsaw()).date()`) — passed explicitly, and the client's
`user_id` attribute as `clientUserId`.  The meter-list fetch is guarded by
its own `try/except` that degrades to an empty list; each meter with a
non-`None` id gets a slot from five individually guarded sub-fetches. -/
def asyncUpdateData {α β γ : Type} (env : CoordEnv α β γ) (clientUserId : Json)
    (nowUtc : ℕ) (todayLocal : ℕ) : Snapshot α β γ :=
  let meters := match env.get_meters with
    | .ok ms => ms
    | .error _ => []
  let buyWin := local_day_window_utc todayLocal
  let usageWin := local_day_window_utc_ms todayLocal
  let per_meter := meters.foldl
    (fun acc m =>
      match m.id with
      | none => acc
      | some mid => dictInsert acc mid (processMeter env mid buyWin usageWin))
    []
  { ts_utc := isoformatUtc nowUtc
    user_id := clientUserId
    meters := meters
    per_meter := per_meter
    windows_buy := (iso_utcInt buyWin.1, iso_utcInt buyWin.2)
    windows_sell := (iso_utcInt buyWin.1, iso_utcInt buyWin.2)
    windows_usage := (iso_utcInt usageWin.1, iso_utcInt usageWin.2)
    windows_cost := (iso_utcInt usageWin.1, iso_utcInt usageWin.2) }

/-! ## Concrete fixtures

Closed inputs used to instantiate the theorems below on evaluable data:
a well-formed token whose payload is the empty JSON object (`e30` is the
base64url of `{}`, so both claims default and the instants are the
epoch), canned provider responses, and small coordinator environments. -/

def tokenEmptyPayload : String := "h.e30.s"

/-- An authenticated client state with all bookkeeping populated. -/
def stAuth : ClientState :=
  { clientInit none none with
    access_token := some "a.e30.b"
    refresh_token := some "r.e30.c"
    user_id := Json.num 42
    AccessIssuedAt := some 10
    AccessExpires := some 20
    RefreshIssuedAt := some 30
    RefreshExpires := some 40 }

/-- A refresh response carrying a fresh access token and no `user_id`. -/
def refreshNoUserResp : PostResponse :=
  some (200, "", Json.obj [("access", Json.str tokenEmptyPayload)])

/-- A refresh response whose `access` value does not decode as a JWT. -/
def refreshBadTokenResp : PostResponse :=
  some (200, "", Json.obj [("access", Json.str "bad")])

/-- A login response with all three expected fields. -/
def loginOkResp : PostResponse :=
  some (200, "", Json.obj [("refresh", Json.str tokenEmptyPayload),
    ("access", Json.str tokenEmptyPayload), ("user_id", Json.num 7)])

/-- A remote that 401s the first GET, accepts the refresh (no `user_id`),
and 200s the retry. -/
def getEnvRetryOk : GetEnv :=
  ⟨fun i _ _ => if i = 0 then (401, "expired", Json.null)
    else (200, "retry-text", Json.obj [("ok", Json.num 1)]), refreshNoUserResp⟩

def pudFixture : PowerUsageDay := ⟨[], 1, 2, 3⟩

def pcdFixture : PowerCostDay :=
  ⟨[], .num 9, .null, .null, .null, .null, .null, .null, .null, .null, .null, .null, .null⟩

/-- A cycle in which the meter-list fetch raises. -/
def envMetersFail : CoordEnv Unit Unit Unit :=
  ⟨.error "meters down", fun _ => .ok (), fun _ _ => .ok (), fun _ => .ok (),
    fun _ _ => .ok pudFixture, fun _ _ => .ok pcdFixture⟩

/-- A cycle with one meter whose alerts sub-fetch raises and the other
four sub-fetches succeed. -/
def envAlertsFail : CoordEnv Unit Unit Unit :=
  ⟨.ok [⟨some 7⟩], fun _ => .error "alerts down", fun _ _ => .ok (), fun _ => .ok (),
    fun _ _ => .ok pudFixture, fun _ _ => .ok pcdFixture⟩

/-- A cycle with meters `[{id:1},{id:2}]` and every sub-fetch succeeding. -/
def envAllOk : CoordEnv Unit Unit Unit :=
  ⟨.ok [⟨some 1⟩, ⟨some 2⟩], fun _ => .ok (), fun _ _ => .ok (), fun _ => .ok (),
    fun _ _ => .ok pudFixture, fun _ _ => .ok pcdFixture⟩

/-! ## Calendar lemmas -/

lemma leapCount_succ (y : ℕ) :
    leapCount (y + 1) = leapCount y + (if isLeap (y + 1) then 1 else 0) := by
  simp only [leapCount, isLeap]
  split
  · rename_i h
    simp only [Bool.or_eq_true, Bool.and_eq_true, decide_eq_true_eq, bne_iff_ne,
      ne_eq] at h
    omega
  · rename_i h
    simp only [Bool.or_eq_true, Bool.and_eq_true, decide_eq_true_eq, bne_iff_ne,
      ne_eq, not_or, not_and, Decidable.not_not] at h
    omega

lemma leapCount_mono {a b : ℕ} (h : a ≤ b) : leapCount a ≤ leapCount b := by
  induction b with
  | zero => simp_all
  | succ b ih =>
    rcases Nat.lt_or_ge a (b + 1) with h' | h'
    · calc leapCount a ≤ leapCount b := ih (by omega)
        _ ≤ leapCount (b + 1) := by rw [leapCount_succ]; split <;> omega
    · have : a = b + 1 := by omega
      simp [this]

lemma leapCount_1969 : leapCount 1969 = 477 := by decide

lemma epochOfYear_succ {y : ℕ} (h : 1970 ≤ y) :
    epochOfYear (y + 1) = epochOfYear y + 365 + (if isLeap y then 1 else 0) := by
  have h1 : leapCount 1969 ≤ leapCount (y - 1) := leapCount_mono (by omega)
  have h2 : y - 1 + 1 = y := by omega
  have h3 := leapCount_succ (y - 1)
  rw [h2] at h3
  simp only [epochOfYear]
  rw [leapCount_1969] at h1
  have h4 : y + 1 - 1 = y - 1 + 1 := by omega
  rw [h4, leapCount_succ, h2]
  split <;> omega

lemma epochOfYear_add {y : ℕ} (h : 1970 ≤ y) (k : ℕ) :
    epochOfYear y + 365 * k ≤ epochOfYear (y + k) := by
  induction k with
  | zero => simp
  | succ k ih =>
    have := epochOfYear_succ (y := y + k) (by omega)
    have h5 : y + (k + 1) = y + k + 1 := by omega
    rw [h5, this]
    split <;> omega

lemma epochOfYear_mono {a b : ℕ} (h : 1970 ≤ a) (hab : a ≤ b) :
    epochOfYear a ≤ epochOfYear b := by
  have := epochOfYear_add h (b - a)
  have h2 : a + (b - a) = b := by omega
  rw [h2] at this
  omega

lemma epochOfYear_1970 : epochOfYear 1970 = 0 := by decide

lemma yearOfAux_spec (d : ℕ) : ∀ (fuel y : ℕ), 1970 ≤ y → epochOfYear y ≤ d →
    d < epochOfYear (y + fuel) →
    1970 ≤ yearOfAux d fuel y ∧ epochOfYear (yearOfAux d fuel y) ≤ d ∧
      d < epochOfYear (yearOfAux d fuel y + 1) := by
  intro fuel
  induction fuel with
  | zero => intro y h1 h2 h3; simp only [Nat.add_zero] at h3; omega
  | succ fuel ih =>
    intro y h1 h2 h3
    rw [yearOfAux]
    split
    · rename_i hle
      exact ih (y + 1) (by omega) hle (by have : y + 1 + fuel = y + (fuel + 1) := by omega
                                          rw [this]; exact h3)
    · rename_i hlt
      exact ⟨h1, h2, by omega⟩

lemma yearOf_spec (d : ℕ) :
    1970 ≤ yearOf d ∧ epochOfYear (yearOf d) ≤ d ∧ d < epochOfYear (yearOf d + 1) := by
  apply yearOfAux_spec d (d + 1) 1970 le_rfl (by rw [epochOfYear_1970]; omega)
  have := epochOfYear_add (y := 1970) le_rfl (d + 1)
  rw [epochOfYear_1970] at this
  omega

lemma yearOf_eq {d y : ℕ} (h1 : 1970 ≤ y) (h2 : epochOfYear y ≤ d)
    (h3 : d < epochOfYear (y + 1)) : yearOf d = y := by
  obtain ⟨r1, r2, r3⟩ := yearOf_spec d
  by_contra hne
  rcases Nat.lt_or_ge (yearOf d) y with hlt | hge
  · have : epochOfYear (yearOf d + 1) ≤ epochOfYear y := epochOfYear_mono (by omega) (by omega)
    omega
  · have : epochOfYear (y + 1) ≤ epochOfYear (yearOf d) := epochOfYear_mono (by omega) (by omega)
    omega

lemma springDay_bounds (y : ℕ) :
    epochOfYear y + 83 ≤ springDay y ∧ springDay y ≤ epochOfYear y + 90 := by
  simp only [springDay, lastSundayOnOrBefore, march31, dow]
  have : (epochOfYear y + 89 + (if isLeap y then 1 else 0) + 4) % 7 ≤ 6 :=
    Nat.le_of_lt_succ (Nat.mod_lt _ (by omega))
  split <;> omega

lemma fallDay_bounds (y : ℕ) :
    epochOfYear y + 297 ≤ fallDay y ∧ fallDay y ≤ epochOfYear y + 304 := by
  simp only [fallDay, lastSundayOnOrBefore, oct31, dow]
  have : (epochOfYear y + 303 + (if isLeap y then 1 else 0) + 4) % 7 ≤ 6 :=
    Nat.le_of_lt_succ (Nat.mod_lt _ (by omega))
  split <;> omega

/-- DST does not change between the last millisecond of a local day and
the following local midnight (EU transitions happen at 02:00/03:00
local), so the wall instants `d, 23:59:59.999` and `d+1, 00:00` carry the
same UTC offset. -/
lemma isDstWall_day_end (d : ℕ) : isDstWall d 86399999000 = isDstWall (d + 1) 0 := by
  obtain ⟨hy1, hy2, hy3⟩ := yearOf_spec d
  set y := yearOf d with hy
  rcases Nat.lt_or_ge (d + 1) (epochOfYear (y + 1)) with hcase | hcase
  · -- `d` and `d + 1` fall in the same year
    have hnext : yearOf (d + 1) = y := yearOf_eq hy1 (by omega) hcase
    simp only [isDstWall, ← hy, hnext]
    apply Bool.eq_iff_iff.mpr
    simp only [Bool.and_eq_true, Bool.or_eq_true, decide_eq_true_eq]
    omega
  · -- `d` is the last day of year `y`; `d + 1` is January 1st of `y + 1`
    have hd : d + 1 = epochOfYear (y + 1) := by omega
    have hstep := epochOfYear_succ hy1
    have hnext : yearOf (d + 1) = y + 1 := by
      apply yearOf_eq (by omega) (by omega)
      have := epochOfYear_succ (y := y + 1) (by omega)
      omega
    have hfall := fallDay_bounds y
    have hspring := springDay_bounds (y + 1)
    simp only [isDstWall, ← hy, hnext]
    apply Bool.eq_iff_iff.mpr
    simp only [Bool.and_eq_true, Bool.or_eq_true, decide_eq_true_eq]
    constructor
    · rintro ⟨-, h | ⟨h, -⟩⟩ <;> omega
    · rintro ⟨h | ⟨h, -⟩, -⟩ <;> omega

set_option maxRecDepth 10000 in
lemma monthOf_spec_leap : ∀ doy : ℕ, doy < 366 →
    1 ≤ monthOf true doy ∧ monthOf true doy ≤ 12 ∧
      cumDays true (monthOf true doy) ≤ doy ∧ doy < cumDays true (monthOf true doy + 1) := by
  decide

set_option maxRecDepth 10000 in
lemma monthOf_spec_noleap : ∀ doy : ℕ, doy < 365 →
    1 ≤ monthOf false doy ∧ monthOf false doy ≤ 12 ∧
      cumDays false (monthOf false doy) ≤ doy ∧ doy < cumDays false (monthOf false doy + 1) := by
  decide

/-- The civil decomposition of an epoch day re-encodes to that day: the
rendered year/month/day genuinely name the date. -/
lemma civilFromDays_roundtrip (d : ℕ) :
    daysFromCivil (civilFromDays d).1 (civilFromDays d).2.1 (civilFromDays d).2.2 = d := by
  obtain ⟨hy1, hy2, hy3⟩ := yearOf_spec d
  have hstep := epochOfYear_succ hy1
  simp only [civilFromDays, daysFromCivil]
  cases hleap : isLeap (yearOf d) with
  | true =>
    rw [hleap] at hstep
    simp only [if_pos] at hstep
    obtain ⟨m1, m2, m3, m4⟩ := monthOf_spec_leap (d - epochOfYear (yearOf d)) (by omega)
    omega
  | false =>
    rw [hleap] at hstep
    simp only [Bool.false_eq_true, if_false] at hstep
    obtain ⟨m1, m2, m3, m4⟩ := monthOf_spec_noleap (d - epochOfYear (yearOf d)) (by omega)
    omega

/-! ## The claims -/

/-- Claim C4: for every calendar date `d` — DST transition dates included —
the UTC end instant of the exclusive day window of `d` equals the UTC
start instant of the exclusive day window of `d + 1 day`: consecutive
windows are adjacent, with no gap and no overlap.  (Both instants are the
conversion to UTC of the same aware local datetime, midnight of `d + 1`.) -/
theorem claim_C4 (d : ℕ) :
    (local_day_window_utc d).2 = (local_day_window_utc (d + 1)).1 := rfl

/-- Claim C5: for every calendar date `d`, the inclusive-millisecond day
window has the same UTC start as the exclusive day window, and its UTC end
is exactly one millisecond (1000 µs) before the exclusive window's UTC
end — which needs the UTC offset at local 23:59:59.999 of `d` to agree
with the offset at local midnight of `d + 1`, true because EU DST
transitions happen at 02:00/03:00 local time. -/
theorem claim_C5 (d : ℕ) :
    (local_day_window_utc_ms d).1 = (local_day_window_utc d).1 ∧
      (local_day_window_utc_ms d).2 = (local_day_window_utc d).2 - 1000 := by
  refine ⟨rfl, ?_⟩
  simp only [local_day_window_utc_ms, local_day_window_utc, localWallToUtc, warsawOffset]
  rw [isDstWall_day_end]
  cases isDstWall (d + 1) 0 <;> simp <;> omega

/-- Claim C9: every `window_start`/`window_end` parameter value the four
windowed query builders (buy pricing, sell pricing, power usage, power
cost) put in their `params` dict is `iso_utc` of the bound; and for every
instant, `iso_utc` depends only on the instant truncated to whole seconds
(fractional seconds dropped), renders as `YYYY-MM-DDTHH:MM:SS` plus a `Z`
suffix, and the rendered six fields re-encode to exactly that truncated
UTC instant. -/
theorem claim_C9 (mid : ℤ) (ws we usec : ℕ) (res : String) :
    ((get_pricing_buy_params mid ws we res).lookup "window_start" = some (iso_utc ws) ∧
      (get_pricing_buy_params mid ws we res).lookup "window_end" = some (iso_utc we)) ∧
    ((get_pricing_sell_params ws we res).lookup "window_start" = some (iso_utc ws) ∧
      (get_pricing_sell_params ws we res).lookup "window_end" = some (iso_utc we)) ∧
    ((get_power_usage_params ws we res).lookup "window_start" = some (iso_utc ws) ∧
      (get_power_usage_params ws we res).lookup "window_end" = some (iso_utc we)) ∧
    ((get_power_cost_params ws we res).lookup "window_start" = some (iso_utc ws) ∧
      (get_power_cost_params ws we res).lookup "window_end" = some (iso_utc we)) ∧
    iso_utc usec = iso_utc (1000000 * (usec / 1000000)) ∧
    iso_utc usec =
      isoRender (civilFromDays (usec / 1000000 / 86400)).1
        (civilFromDays (usec / 1000000 / 86400)).2.1
        (civilFromDays (usec / 1000000 / 86400)).2.2
        (usec / 1000000 % 86400 / 3600) (usec / 1000000 % 86400 % 3600 / 60)
        (usec / 1000000 % 86400 % 60) ++ "Z" ∧
    daysFromCivil (civilFromDays (usec / 1000000 / 86400)).1
        (civilFromDays (usec / 1000000 / 86400)).2.1
        (civilFromDays (usec / 1000000 / 86400)).2.2 * 86400 +
      (usec / 1000000 % 86400 / 3600) * 3600 +
      (usec / 1000000 % 86400 % 3600 / 60) * 60 +
      usec / 1000000 % 86400 % 60 = usec / 1000000 := by
  refine ⟨⟨rfl, rfl⟩, ⟨rfl, rfl⟩, ⟨rfl, rfl⟩, ⟨rfl, rfl⟩, ?_, ?_, ?_⟩
  · simp only [iso_utc, Nat.mul_div_cancel_left _ (by norm_num : (0:ℕ) < 1000000)]
  · rfl
  · have hrt := civilFromDays_roundtrip (usec / 1000000 / 86400)
    omega

/-! ### C3 — decoder totality -/

lemma pyOr_obj (kvs : List (String × Json)) : pyOr (Json.obj kvs) (Json.obj []) = Json.obj kvs := by
  cases kvs <;> rfl

lemma costFrames_mapM (xs : List Json) :
    ∃ fs, listMapM PowerCostFrame.from_dict (xs.filter isJsonObj) = some fs := by
  induction xs with
  | nil => exact ⟨[], rfl⟩
  | cons x xs ih =>
    obtain ⟨fs, hfs⟩ := ih
    cases x with
    | obj kvs =>
      refine ⟨(PowerCostFrame.from_dict (Json.obj kvs)).get rfl :: fs, ?_⟩
      simp [List.filter_cons, isJsonObj, listMapM, hfs, PowerCostFrame.from_dict]
    | null => simpa [List.filter_cons, isJsonObj] using ⟨fs, hfs⟩
    | bool b => simpa [List.filter_cons, isJsonObj] using ⟨fs, hfs⟩
    | num q => simpa [List.filter_cons, isJsonObj] using ⟨fs, hfs⟩
    | str s => simpa [List.filter_cons, isJsonObj] using ⟨fs, hfs⟩
    | arr ys => simpa [List.filter_cons, isJsonObj] using ⟨fs, hfs⟩

/-- Claim C3 (as stated) is false: `PowerUsageFrame.from_dict` applied to
the input dictionary `{"fae_usage": "abc"}` calls bare `float("abc")` and
raises `ValueError`, instead of treating the non-coercible value as 0 and
never raising. -/
theorem claim_C3_counterexample :
    PowerUsageFrame.from_dict (Json.obj [("fae_usage", Json.str "abc")]) = none := by
  rfl

/-- Every `pyOr (… .get "frames") (arr [])` that evaluates to the empty
list — a missing or falsy `frames` field — gives a total cost-day decode
with an empty frame list. -/
lemma costDay_frames_empty (kvs : List (String × Json))
    (hor : pyOr (dictGetD kvs "frames" Json.null) (Json.arr []) = Json.arr []) :
    ∃ r, PowerCostDay.from_dict (Json.obj kvs) = some r ∧ r.frames = [] := by
  refine ⟨⟨[], PowerCostDay.f (dictGetD kvs "fae_total_cost" Json.null),
    PowerCostDay.f (dictGetD kvs "total_energy_sold_value" Json.null),
    PowerCostDay.f (dictGetD kvs "total_energy_balance_value" Json.null),
    PowerCostDay.f (dictGetD kvs "total_sales_cost_net" Json.null),
    PowerCostDay.f (dictGetD kvs "total_service_cost_net" Json.null),
    PowerCostDay.f (dictGetD kvs "total_dist_cost_net" Json.null),
    PowerCostDay.f (dictGetD kvs "total_excise" Json.null),
    PowerCostDay.f (dictGetD kvs "total_vat" Json.null),
    PowerCostDay.f (dictGetD kvs "total_energy_cost_with_service" Json.null),
    PowerCostDay.f (dictGetD kvs "total_var_dist_cost_net" Json.null),
    PowerCostDay.f (dictGetD kvs "total_fix_dist_cost_net" Json.null),
    PowerCostDay.f (dictGetD kvs "total_energy_cost_net" Json.null)⟩, ?_, rfl⟩
  simp [PowerCostDay.from_dict, hor, pyIter, listMapM]

/-- Claim C3 as amended.  For input dictionaries: the cost-frame decoder
is total, its `f` helper mapping `None` and `""` to 0 and keeping any
other non-coercible value verbatim, and every decoded field is exactly
`f` of the raw value; the cost-day `f` keeps every non-coercible value
verbatim; the cost-day decoder is total whenever `frames` is a list and
decodes a missing or falsy `frames` to the empty sequence; the
usage-frame decoder is total exactly when its three `float(… or 0)`
coercions succeed, each decoded field being exactly that coercion, and
the coercion sends a missing or falsy field to 0; the usage-day decoder
decodes a missing `frames` to the empty sequence when its three totals
coerce, its totals likewise being exactly the `float(… or 0)`
coercions. -/
theorem claim_C3_amended :
    (∀ kvs, (PowerCostFrame.from_dict (Json.obj kvs)).isSome = true) ∧
    (∀ v, pyFloat v = none → v ≠ Json.null → v ≠ Json.str "" → PowerCostFrame.f v = v) ∧
    PowerCostFrame.f Json.null = Json.num 0 ∧
    PowerCostFrame.f (Json.str "") = Json.num 0 ∧
    (∀ v, pyFloat v = none → PowerCostDay.f v = v) ∧
    (∀ kvs r, PowerCostFrame.from_dict (Json.obj kvs) = some r →
      r.start = dictGetD kvs "start" Json.null ∧
      r.«end» = dictGetD kvs "end" Json.null ∧
      r.fae_cost = PowerCostFrame.f (dictGetD kvs "fae_cost" Json.null) ∧
      r.var_dist_cost_net = PowerCostFrame.f (dictGetD kvs "var_dist_cost_net" Json.null) ∧
      r.fix_dist_cost_net = PowerCostFrame.f (dictGetD kvs "fix_dist_cost_net" Json.null) ∧
      r.energy_cost_net = PowerCostFrame.f (dictGetD kvs "energy_cost_net" Json.null) ∧
      r.service_cost_net = PowerCostFrame.f (dictGetD kvs "service_cost_net" Json.null) ∧
      r.excise = PowerCostFrame.f (dictGetD kvs "excise" Json.null) ∧
      r.vat = PowerCostFrame.f (dictGetD kvs "vat" Json.null) ∧
      r.energy_sold_value = PowerCostFrame.f (dictGetD kvs "energy_sold_value" Json.null) ∧
      r.energy_balance_value =
        PowerCostFrame.f (dictGetD kvs "energy_balance_value" Json.null)) ∧
    (∀ kvs xs, dictGet kvs "frames" = some (Json.arr xs) →
      (PowerCostDay.from_dict (Json.obj kvs)).isSome = true) ∧
    (∀ kvs, dictGet kvs "frames" = none →
      ∃ r, PowerCostDay.from_dict (Json.obj kvs) = some r ∧ r.frames = []) ∧
    (∀ kvs v, dictGet kvs "frames" = some v → pyTruthy v = false →
      ∃ r, PowerCostDay.from_dict (Json.obj kvs) = some r ∧ r.frames = []) ∧
    (∀ kvs, (PowerUsageFrame.numField kvs "fae_usage").isSome = true →
      (PowerUsageFrame.numField kvs "rae").isSome = true →
      (PowerUsageFrame.numField kvs "energy_balance").isSome = true →
      (PowerUsageFrame.from_dict (Json.obj kvs)).isSome = true) ∧
    (∀ kvs r, PowerUsageFrame.from_dict (Json.obj kvs) = some r →
      PowerUsageFrame.numField kvs "fae_usage" = some r.fae_usage ∧
      PowerUsageFrame.numField kvs "rae" = some r.rae ∧
      PowerUsageFrame.numField kvs "energy_balance" = some r.energy_balance) ∧
    (∀ kvs k, dictGet kvs k = none → PowerUsageFrame.numField kvs k = some 0) ∧
    (∀ kvs k v, dictGet kvs k = some v → pyTruthy v = false →
      PowerUsageFrame.numField kvs k = some 0) ∧
    (∀ kvs, dictGet kvs "frames" = none →
      (PowerUsageFrame.numField kvs "fae_total_usage").isSome = true →
      (PowerUsageFrame.numField kvs "rae_total").isSome = true →
      (PowerUsageFrame.numField kvs "energy_balance").isSome = true →
      ∃ r, PowerUsageDay.from_api_dict (Json.obj kvs) = some r ∧ r.frames = []) ∧
    (∀ kvs r, PowerUsageDay.from_api_dict (Json.obj kvs) = some r →
      PowerUsageFrame.numField kvs "fae_total_usage" = some r.fae_total_usage ∧
      PowerUsageFrame.numField kvs "rae_total" = some r.rae_total ∧
      PowerUsageFrame.numField kvs "energy_balance" = some r.energy_balance) := by
  refine ⟨?_, ?_, rfl, rfl, ?_, ?_, ?_, ?_, ?_, ?_, ?_, ?_, ?_, ?_, ?_⟩
  · intro kvs; rfl
  · intro v hv hnull hstr
    cases v with
    | null => exact absurd rfl hnull
    | str s =>
      by_cases hs : s = ""
      · exact absurd (by rw [hs]) hstr
      · simp [PowerCostFrame.f, hv, hs]
    | bool b => simp_all [PowerCostFrame.f, pyFloat]
    | num q => simp_all [PowerCostFrame.f, pyFloat]
    | arr xs => simp [PowerCostFrame.f, hv]
    | obj kvs => simp [PowerCostFrame.f, hv]
  · intro v hv; simp [PowerCostDay.f, hv]
  · intro kvs r h
    simp only [PowerCostFrame.from_dict] at h
    injection h with h1
    subst h1
    exact ⟨rfl, rfl, rfl, rfl, rfl, rfl, rfl, rfl, rfl, rfl, rfl⟩
  · intro kvs xs hx
    obtain ⟨fs, hfs⟩ := costFrames_mapM xs
    have hor : pyOr (dictGetD kvs "frames" Json.null) (Json.arr []) = Json.arr xs := by
      simp only [dictGetD, hx, Option.getD_some]
      cases xs <;> rfl
    simp [PowerCostDay.from_dict, hor, pyIter, hfs]
  · intro kvs hx
    exact costDay_frames_empty kvs (by simp only [dictGetD, hx, Option.getD_none]; rfl)
  · intro kvs v hv htr
    exact costDay_frames_empty kvs
      (by simp only [dictGetD, hv, Option.getD_some, pyOr, htr, Bool.false_eq_true,
        if_false])
  · intro kvs h1 h2 h3
    obtain ⟨a, ha⟩ := Option.isSome_iff_exists.mp h1
    obtain ⟨b, hb⟩ := Option.isSome_iff_exists.mp h2
    obtain ⟨c, hc⟩ := Option.isSome_iff_exists.mp h3
    simp [PowerUsageFrame.from_dict, ha, hb, hc]
  · intro kvs r h
    simp only [PowerUsageFrame.from_dict] at h
    cases hfa : PowerUsageFrame.numField kvs "fae_usage" with
    | none => rw [hfa] at h; simp at h
    | some a =>
      rw [hfa] at h
      cases hra : PowerUsageFrame.numField kvs "rae" with
      | none => rw [hra] at h; simp at h
      | some b =>
        rw [hra] at h
        cases heb : PowerUsageFrame.numField kvs "energy_balance" with
        | none => rw [heb] at h; simp at h
        | some c =>
          rw [heb] at h
          have h' : some (⟨dictGetD kvs "start" Json.null, dictGetD kvs "end" Json.null,
              a, b, c⟩ : PowerUsageFrame) = some r := h
          injection h' with h1
          subst h1
          exact ⟨rfl, rfl, rfl⟩
  · intro kvs k hk
    simp [PowerUsageFrame.numField, dictGetD, hk, pyOr, pyTruthy, pyFloat]
  · intro kvs k v hk htr
    simp [PowerUsageFrame.numField, dictGetD, hk, pyOr, htr, pyFloat]
  · intro kvs hx h1 h2 h3
    obtain ⟨a, ha⟩ := Option.isSome_iff_exists.mp h1
    obtain ⟨b, hb⟩ := Option.isSome_iff_exists.mp h2
    obtain ⟨c, hc⟩ := Option.isSome_iff_exists.mp h3
    have hor : pyOr (dictGetD kvs "frames" Json.null) (Json.arr []) = Json.arr [] := by
      simp only [dictGetD, hx, Option.getD_none]; rfl
    refine ⟨⟨[], a, b, c⟩, ?_, rfl⟩
    simp [PowerUsageDay.from_api_dict, pyOr_obj, hor, pyIter, listMapM, ha, hb, hc]
  · intro kvs r h
    simp only [PowerUsageDay.from_api_dict, pyOr_obj] at h
    cases hit : pyIter (pyOr (dictGetD kvs "frames" Json.null) (Json.arr [])) with
    | none => rw [hit] at h; simp at h
    | some elems =>
      rw [hit] at h
      have h₀ : (listMapM PowerUsageFrame.from_dict (elems.filter isJsonObj)).bind
          (fun frames => (PowerUsageFrame.numField kvs "fae_total_usage").bind
            (fun fae => (PowerUsageFrame.numField kvs "rae_total").bind
              (fun rae => (PowerUsageFrame.numField kvs "energy_balance").bind
                (fun eb => some (⟨frames, fae, rae, eb⟩ : PowerUsageDay))))) = some r := h
      cases hlm : listMapM PowerUsageFrame.from_dict (elems.filter isJsonObj) with
      | none => rw [hlm] at h₀; simp at h₀
      | some fs =>
        rw [hlm] at h₀
        cases hfa : PowerUsageFrame.numField kvs "fae_total_usage" with
        | none => rw [hfa] at h₀; simp at h₀
        | some a =>
          rw [hfa] at h₀
          cases hra : PowerUsageFrame.numField kvs "rae_total" with
          | none => rw [hra] at h₀; simp at h₀
          | some b =>
            rw [hra] at h₀
            cases heb : PowerUsageFrame.numField kvs "energy_balance" with
            | none => rw [heb] at h₀; simp at h₀
            | some c =>
              rw [heb] at h₀
              have h' : some (⟨fs, a, b, c⟩ : PowerUsageDay) = some r := h₀
              injection h' with h1
              subst h1
              exact ⟨rfl, rfl, rfl⟩

/-- Witness: the amended C3 at concrete inputs — a cost frame whose
`fae_cost` is the non-coercible `"abc"` decodes with the value kept
verbatim by `f` while `f` maps `None` to 0, cost-day dicts with a
missing and with a falsy (`null`) `frames` field decode with empty frame
lists, a missing and a falsy (`0`) usage field coerce to 0, a usage
frame with a numeric field decodes, and an empty usage-day dict decodes
with an empty frame list. -/
theorem claim_C3_witness :
    (PowerCostFrame.from_dict (Json.obj [("fae_cost", Json.str "abc")])).isSome = true ∧
    PowerCostFrame.f (Json.str "abc") = Json.str "abc" ∧
    PowerCostFrame.f Json.null = Json.num 0 ∧
    (∃ r, PowerCostDay.from_dict (Json.obj []) = some r ∧ r.frames = []) ∧
    (∃ r, PowerCostDay.from_dict (Json.obj [("frames", Json.null)]) = some r ∧
      r.frames = []) ∧
    PowerUsageFrame.numField [] "fae_usage" = some 0 ∧
    PowerUsageFrame.numField [("rae", Json.num 0)] "rae" = some 0 ∧
    (PowerUsageFrame.from_dict (Json.obj [("fae_usage", Json.num 5)])).isSome = true ∧
    (∃ r, PowerUsageDay.from_api_dict (Json.obj []) = some r ∧ r.frames = []) :=
  ⟨claim_C3_amended.1 _,
   claim_C3_amended.2.1 (Json.str "abc") rfl (fun h => Json.noConfusion h)
     (fun h => by injection h with h'; exact absurd h' (by decide)),
   claim_C3_amended.2.2.1,
   claim_C3_amended.2.2.2.2.2.2.2.1 [] rfl,
   claim_C3_amended.2.2.2.2.2.2.2.2.1 [("frames", Json.null)] Json.null rfl rfl,
   claim_C3_amended.2.2.2.2.2.2.2.2.2.2.2.1 [] "fae_usage" rfl,
   claim_C3_amended.2.2.2.2.2.2.2.2.2.2.2.2.1 [("rae", Json.num 0)] "rae" (Json.num 0)
     rfl (by rfl),
   claim_C3_amended.2.2.2.2.2.2.2.2.2.1 _ rfl rfl rfl,
   claim_C3_amended.2.2.2.2.2.2.2.2.2.2.2.2.2.1 [] rfl rfl rfl rfl⟩

/-! ### The aggregator's per-meter dict -/

lemma lookup_map_replace {α : Type} (k : ℤ) (v : α) :
    ∀ m : List (ℤ × α), m.any (fun p => p.1 = k) = true →
      (m.map (fun p => if p.1 = k then (k, v) else p)).lookup k = some v := by
  intro m
  induction m with
  | nil => simp
  | cons p m ih =>
    obtain ⟨p1, p2⟩ := p
    intro h
    by_cases hp : p1 = k
    · subst hp
      rw [List.map_cons, if_pos rfl, List.lookup_cons, beq_self_eq_true]
    · rw [List.map_cons, if_neg (by simpa using hp), List.lookup_cons,
        beq_eq_false_iff_ne.mpr (Ne.symm hp)]
      simp only [List.any_cons, decide_eq_true_eq] at h
      exact ih (by simpa [hp] using h)

lemma lookup_append_single {α : Type} (k : ℤ) (v : α) :
    ∀ m : List (ℤ × α), m.any (fun p => p.1 = k) = false →
      (m ++ [(k, v)]).lookup k = some v := by
  intro m
  induction m with
  | nil =>
    intro _
    rw [List.nil_append, List.lookup_cons, beq_self_eq_true]
  | cons p m ih =>
    obtain ⟨p1, p2⟩ := p
    intro h
    simp only [List.any_cons, decide_eq_true_eq, Bool.or_eq_false_iff] at h
    rw [List.cons_append, List.lookup_cons,
      beq_eq_false_iff_ne.mpr (Ne.symm (by simpa using h.1))]
    exact ih h.2

lemma dictInsert_lookup_self {α : Type} (m : List (ℤ × α)) (k : ℤ) (v : α) :
    (dictInsert m k v).lookup k = some v := by
  unfold dictInsert
  split
  · exact lookup_map_replace k v m (by assumption)
  · rename_i h
    exact lookup_append_single k v m (by revert h; cases m.any fun p => decide (p.1 = k) <;> simp)

lemma lookup_map_replace_ne {α : Type} (k k' : ℤ) (v : α) (h : k' ≠ k) :
    ∀ m : List (ℤ × α),
      (m.map (fun p => if p.1 = k then (k, v) else p)).lookup k' = m.lookup k' := by
  intro m
  induction m with
  | nil => rfl
  | cons p m ih =>
    obtain ⟨p1, p2⟩ := p
    by_cases hp : p1 = k
    · subst hp
      rw [List.map_cons, if_pos rfl, List.lookup_cons, List.lookup_cons,
        beq_eq_false_iff_ne.mpr h]
      exact ih
    · rw [List.map_cons, if_neg (by simpa using hp), List.lookup_cons, List.lookup_cons]
      cases hk : (k' == p1)
      · exact ih
      · rfl

lemma lookup_append_single_ne {α : Type} (k k' : ℤ) (v : α) (h : k' ≠ k) :
    ∀ m : List (ℤ × α), (m ++ [(k, v)]).lookup k' = m.lookup k' := by
  intro m
  induction m with
  | nil => rw [List.nil_append, List.lookup_cons, beq_eq_false_iff_ne.mpr h]
  | cons p m ih =>
    obtain ⟨p1, p2⟩ := p
    rw [List.cons_append, List.lookup_cons, List.lookup_cons]
    cases hk : (k' == p1)
    · exact ih
    · rfl

lemma dictInsert_lookup_ne {α : Type} (m : List (ℤ × α)) (k k' : ℤ) (v : α)
    (h : k' ≠ k) : (dictInsert m k v).lookup k' = m.lookup k' := by
  unfold dictInsert
  split
  · exact lookup_map_replace_ne k k' v h m
  · exact lookup_append_single_ne k k' v h m

lemma dictInsert_mem_keys {α : Type} (m : List (ℤ × α)) (k mid : ℤ) (v : α) :
    mid ∈ (dictInsert m k v).map Prod.fst ↔ mid = k ∨ mid ∈ m.map Prod.fst := by
  unfold dictInsert
  split
  · rename_i hany
    have hk : k ∈ m.map Prod.fst := by
      obtain ⟨p, hp, hpk⟩ := List.any_eq_true.mp hany
      simp only [decide_eq_true_eq] at hpk
      exact hpk ▸ List.mem_map_of_mem Prod.fst hp
    have hkeys : (m.map (fun p => if p.1 = k then (k, v) else p)).map Prod.fst
        = m.map Prod.fst := by
      rw [List.map_map]
      apply List.map_congr_left
      intro p _
      by_cases hp : p.1 = k <;> simp [hp]
    rw [hkeys]
    constructor
    · exact Or.inr
    · rintro (rfl | hm)
      · exact hk
      · exact hm
  · simp [List.map_append, or_comm]

/-- Key fact about the per-meter loop: the final dict maps each non-null
meter id to the slot `processMeter` computes for it, and leaves other
keys to the accumulator. -/
lemma perMeter_lookup {α β γ : Type} (env : CoordEnv α β γ) (bw uw : ℤ × ℤ) :
    ∀ (ms : List Meter) (acc : List (ℤ × Slot α β γ)) (mid : ℤ),
      (ms.foldl (fun acc m =>
        match m.id with
        | none => acc
        | some k => dictInsert acc k (processMeter env k bw uw)) acc).lookup mid =
      if ms.any (fun m => decide (m.id = some mid)) then some (processMeter env mid bw uw)
      else acc.lookup mid := by
  intro ms
  induction ms with
  | nil => intro acc mid; simp
  | cons m ms ih =>
    intro acc mid
    rw [List.foldl_cons, List.any_cons]
    cases hm : m.id with
    | none => simp only [hm]; rw [ih]; simp
    | some k =>
      simp only [hm]
      rw [ih]
      by_cases hk : k = mid
      · subst hk
        simp [dictInsert_lookup_self]
      · have : (decide (some k = some mid)) = false := by simp [hk]
        rw [this]
        simp only [Bool.false_or]
        rw [dictInsert_lookup_ne _ _ _ _ (by omega)]

lemma perMeter_mem_keys {α β γ : Type} (env : CoordEnv α β γ) (bw uw : ℤ × ℤ) :
    ∀ (ms : List Meter) (acc : List (ℤ × Slot α β γ)) (mid : ℤ),
      (mid ∈ (ms.foldl (fun acc m =>
        match m.id with
        | none => acc
        | some k => dictInsert acc k (processMeter env k bw uw)) acc).map Prod.fst) ↔
      ((∃ m ∈ ms, m.id = some mid) ∨ mid ∈ acc.map Prod.fst) := by
  intro ms
  induction ms with
  | nil => intro acc mid; simp
  | cons m ms ih =>
    intro acc mid
    rw [List.foldl_cons]
    cases hm : m.id with
    | none =>
      simp only [hm]
      rw [ih]
      constructor
      · rintro (⟨m', hm', hid⟩ | h) <;> [exact Or.inl ⟨m', by simp [hm'], hid⟩; exact Or.inr h]
      · rintro (⟨m', hm', hid⟩ | h)
        · rcases List.mem_cons.mp hm' with rfl | hm''
          · rw [hm] at hid; cases hid
          · exact Or.inl ⟨m', hm'', hid⟩
        · exact Or.inr h
    | some k =>
      simp only [hm]
      rw [ih, dictInsert_mem_keys]
      constructor
      · rintro (⟨m', hm', hid⟩ | rfl | h)
        · exact Or.inl ⟨m', by simp [hm'], hid⟩
        · exact Or.inl ⟨m, by simp, hm⟩
        · exact Or.inr h
      · rintro (⟨m', hm', hid⟩ | h)
        · rcases List.mem_cons.mp hm' with rfl | hm''
          · rw [hm] at hid
            exact Or.inr (Or.inl (by injection hid with h'; omega))
          · exact Or.inl ⟨m', hm'', hid⟩
        · exact Or.inr (Or.inr h)

/-- Claim C6: when the meter-list fetch raises, the refresh cycle does not
propagate the error — the snapshot comes back with an empty meter list, an
empty per-meter map, and the capture timestamp and all four UTC windows
still populated from `now` and `today`. -/
theorem claim_C6 {α β γ : Type} (env : CoordEnv α β γ) (uid : Json) (now today : ℕ)
    (e : String) (h : env.get_meters = .error e) :
    asyncUpdateData env uid now today =
      { ts_utc := isoformatUtc now
        user_id := uid
        meters := []
        per_meter := []
        windows_buy := (iso_utcInt (local_day_window_utc today).1,
          iso_utcInt (local_day_window_utc today).2)
        windows_sell := (iso_utcInt (local_day_window_utc today).1,
          iso_utcInt (local_day_window_utc today).2)
        windows_usage := (iso_utcInt (local_day_window_utc_ms today).1,
          iso_utcInt (local_day_window_utc_ms today).2)
        windows_cost := (iso_utcInt (local_day_window_utc_ms today).1,
          iso_utcInt (local_day_window_utc_ms today).2) } := by
  simp [asyncUpdateData, h]

/-- Witness: C6 on the concrete failing-meter-list cycle. -/
theorem claim_C6_witness :
    asyncUpdateData envMetersFail Json.null 0 0 =
      { ts_utc := isoformatUtc 0
        user_id := Json.null
        meters := []
        per_meter := []
        windows_buy := (iso_utcInt (local_day_window_utc 0).1,
          iso_utcInt (local_day_window_utc 0).2)
        windows_sell := (iso_utcInt (local_day_window_utc 0).1,
          iso_utcInt (local_day_window_utc 0).2)
        windows_usage := (iso_utcInt (local_day_window_utc_ms 0).1,
          iso_utcInt (local_day_window_utc_ms 0).2)
        windows_cost := (iso_utcInt (local_day_window_utc_ms 0).1,
          iso_utcInt (local_day_window_utc_ms 0).2) } :=
  claim_C6 envMetersFail Json.null 0 0 "meters down" rfl

/-- Claim C7: every meter with a non-null id gets a per-meter entry equal
to its five individually guarded sub-fetches, whatever the outcomes of
those sub-fetches and of other meters' (failure isolation); and when
exactly one of the five sub-fetches fails, the slot has exactly that one
field set to the absent marker and the other four populated. -/
theorem claim_C7 {α β γ : Type} (env : CoordEnv α β γ) (uid : Json) (now today : ℕ)
    (ms : List Meter) (mid : ℤ) (hms : env.get_meters = .ok ms)
    (hmem : (⟨some mid⟩ : Meter) ∈ ms) :
    ((asyncUpdateData env uid now today).per_meter.lookup mid =
      some (processMeter env mid (local_day_window_utc today)
        (local_day_window_utc_ms today))) ∧
    (∀ bw uw e₁ b c u pc, env.get_full_price_alerts mid = .error e₁ →
      env.get_pricing_buy mid bw = .ok b → env.get_pricing_sell bw = .ok c →
      env.get_power_usage_day mid uw = .ok u → env.get_power_cost_day mid uw = .ok pc →
      processMeter env mid bw uw = ⟨none, some b, some c, some u.frames,
        some (usageTotalsOf u), some pc.frames, some (costTotalsOf pc)⟩) ∧
    (∀ bw uw a e₁ c u pc, env.get_full_price_alerts mid = .ok a →
      env.get_pricing_buy mid bw = .error e₁ → env.get_pricing_sell bw = .ok c →
      env.get_power_usage_day mid uw = .ok u → env.get_power_cost_day mid uw = .ok pc →
      processMeter env mid bw uw = ⟨some a, none, some c, some u.frames,
        some (usageTotalsOf u), some pc.frames, some (costTotalsOf pc)⟩) ∧
    (∀ bw uw a b e₁ u pc, env.get_full_price_alerts mid = .ok a →
      env.get_pricing_buy mid bw = .ok b → env.get_pricing_sell bw = .error e₁ →
      env.get_power_usage_day mid uw = .ok u → env.get_power_cost_day mid uw = .ok pc →
      processMeter env mid bw uw = ⟨some a, some b, none, some u.frames,
        some (usageTotalsOf u), some pc.frames, some (costTotalsOf pc)⟩) ∧
    (∀ bw uw a b c e₁ pc, env.get_full_price_alerts mid = .ok a →
      env.get_pricing_buy mid bw = .ok b → env.get_pricing_sell bw = .ok c →
      env.get_power_usage_day mid uw = .error e₁ → env.get_power_cost_day mid uw = .ok pc →
      processMeter env mid bw uw = ⟨some a, some b, some c, none, none,
        some pc.frames, some (costTotalsOf pc)⟩) ∧
    (∀ bw uw a b c u e₁, env.get_full_price_alerts mid = .ok a →
      env.get_pricing_buy mid bw = .ok b → env.get_pricing_sell bw = .ok c →
      env.get_power_usage_day mid uw = .ok u → env.get_power_cost_day mid uw = .error e₁ →
      processMeter env mid bw uw = ⟨some a, some b, some c, some u.frames,
        some (usageTotalsOf u), none, none⟩) := by
  refine ⟨?_, ?_, ?_, ?_, ?_, ?_⟩
  · have hany : ms.any (fun m => decide (m.id = some mid)) = true :=
      List.any_eq_true.mpr ⟨⟨some mid⟩, hmem, by simp⟩
    simp only [asyncUpdateData, hms]
    rw [perMeter_lookup, hany]
    rfl
  all_goals
    intro bw uw x1 x2 x3 x4 x5 h1 h2 h3 h4 h5
    simp [processMeter, h1, h2, h3, h4, h5, Except.toOption]

/-- Witness: C7 on the concrete one-meter cycle whose alerts sub-fetch
fails while the other four succeed. -/
theorem claim_C7_witness :
    ((asyncUpdateData envAlertsFail Json.null 0 0).per_meter.lookup 7 =
      some (processMeter envAlertsFail 7 (local_day_window_utc 0)
        (local_day_window_utc_ms 0))) ∧
    processMeter envAlertsFail 7 (local_day_window_utc 0) (local_day_window_utc_ms 0) =
      ⟨none, some (), some (), some pudFixture.frames, some (usageTotalsOf pudFixture),
        some pcdFixture.frames, some (costTotalsOf pcdFixture)⟩ := by
  have h := claim_C7 envAlertsFail Json.null 0 0 [⟨some 7⟩] 7 rfl (by simp)
  exact ⟨h.1, h.2.1 (local_day_window_utc 0) (local_day_window_utc_ms 0)
    "alerts down" () () pudFixture pcdFixture rfl rfl rfl rfl rfl⟩

/-- Claim C8: the keys of the snapshot's per-meter map are exactly the
non-null identifiers of the fetched meters (an id-less meter is silently
skipped, producing no entry and no error); and for the meter list
`[{id:1},{id:2}]` with every sub-fetch succeeding, the keys are exactly
`[1, 2]` and both slots have all five fields populated. -/
theorem claim_C8 {α β γ : Type} (env : CoordEnv α β γ) (uid : Json) (now today : ℕ)
    (ms : List Meter) (hms : env.get_meters = .ok ms) :
    (∀ mid : ℤ, mid ∈ (asyncUpdateData env uid now today).per_meter.map Prod.fst ↔
      ∃ m ∈ ms, m.id = some mid) ∧
    (ms = [⟨some 1⟩, ⟨some 2⟩] →
      (∀ k, ∃ a, env.get_full_price_alerts k = .ok a) →
      (∀ k w, ∃ b, env.get_pricing_buy k w = .ok b) →
      (∀ w, ∃ c, env.get_pricing_sell w = .ok c) →
      (∀ k w, ∃ u, env.get_power_usage_day k w = .ok u) →
      (∀ k w, ∃ pc, env.get_power_cost_day k w = .ok pc) →
      (asyncUpdateData env uid now today).per_meter.map Prod.fst = [1, 2] ∧
      (∀ mid ∈ ([1, 2] : List ℤ), ∃ s,
        (asyncUpdateData env uid now today).per_meter.lookup mid = some s ∧
        s.alerts.isSome = true ∧ s.pricing_buy.isSome = true ∧
        s.pricing_sell.isSome = true ∧ s.power_usage_frames.isSome = true ∧
        s.power_usage_totals.isSome = true ∧ s.power_cost_frames.isSome = true ∧
        s.power_cost_totals.isSome = true)) := by
  constructor
  · intro mid
    simp only [asyncUpdateData, hms]
    rw [perMeter_mem_keys]
    simp
  · intro hms2 h1 h2 h3 h4 h5
    subst hms2
    constructor
    · simp [asyncUpdateData, hms, dictInsert]
    · intro mid hmid
      have hlk : ∀ k : ℤ, (k = 1 ∨ k = 2) →
          (asyncUpdateData env uid now today).per_meter.lookup k =
            some (processMeter env k (local_day_window_utc today)
              (local_day_window_utc_ms today)) := by
        intro k hk
        simp only [asyncUpdateData, hms]
        rw [perMeter_lookup]
        rcases hk with rfl | rfl <;> simp
      have hmid' : mid = 1 ∨ mid = 2 := by simpa using hmid
      refine ⟨processMeter env mid (local_day_window_utc today)
        (local_day_window_utc_ms today), hlk mid hmid', ?_⟩
      obtain ⟨a, ha⟩ := h1 mid
      obtain ⟨b, hb⟩ := h2 mid (local_day_window_utc today)
      obtain ⟨c, hc⟩ := h3 (local_day_window_utc today)
      obtain ⟨u, hu⟩ := h4 mid (local_day_window_utc_ms today)
      obtain ⟨pc, hpc⟩ := h5 mid (local_day_window_utc_ms today)
      simp [processMeter, ha, hb, hc, hu, hpc, Except.toOption]

/-- Witness: C8 on the concrete two-meter all-success cycle. -/
theorem claim_C8_witness :
    ((asyncUpdateData envAllOk Json.null 0 0).per_meter.map Prod.fst = [1, 2]) ∧
    (2 ∈ (asyncUpdateData envAllOk Json.null 0 0).per_meter.map Prod.fst ↔
      ∃ m ∈ [(⟨some 1⟩ : Meter), ⟨some 2⟩], m.id = some 2) := by
  have h := claim_C8 envAllOk Json.null 0 0 [⟨some 1⟩, ⟨some 2⟩] rfl
  have h2 := h.2 rfl (fun _ => ⟨(), rfl⟩) (fun _ _ => ⟨(), rfl⟩) (fun _ => ⟨(), rfl⟩)
    (fun _ _ => ⟨pudFixture, rfl⟩) (fun _ _ => ⟨pcdFixture, rfl⟩)
  exact ⟨h2.1, h.1 2⟩

/-! ### The client's 401-refresh-retry primitive -/

/-- A `refresh_access` that returns normally leaves a non-empty access
token in place (the `access` field was truthy, and a non-string value
never survives `decode_jwt`). -/
lemma refresh_access_ok_token (resp : PostResponse) (st st2 : ClientState)
    (h : refresh_access resp st = (st2, none)) :
    ∃ a, st2.access_token = some a ∧ a ≠ "" := by
  simp only [refresh_access] at h
  repeat' split at h
  all_goals try (exfalso; simp at h; done)
  injection h with h1 h2
  subst h1
  refine ⟨_, rfl, ?_⟩
  simp_all [jsonAsTokenRepr, pyTruthy]

/-- Claim C1: `_get_json`'s behaviour for every URL and every authenticated
client.  A 200 on the first GET returns its body after one GET; a non-200
non-401 first status raises at once with the status and a 200-character
body excerpt, with no refresh and no retry; a 401 triggers exactly one
`refresh_access()` — if the refresh fails, its error propagates with no
retry GET, and if it succeeds, exactly one retried GET is issued with the
new token, a 200 returning the retried body and any other status raising
with no further retries; in every case the trace holds at most 2 GETs and
at most 1 refresh call. -/
theorem claim_C1 (env : GetEnv) (st : ClientState) (url tok : String)
    (htok : st.access_token = some tok) (hne : tok ≠ "") :
    (∀ t d, env.get 0 url tok = (200, t, d) →
      getJson env st url = (st, .ok d, [.get url tok])) ∧
    (∀ s t d, env.get 0 url tok = (s, t, d) → s ≠ 200 → s ≠ 401 →
      getJson env st url =
        (st, .error (.getFailed url s (t.take 200)), [.get url tok])) ∧
    (∀ t d, env.get 0 url tok = (401, t, d) →
      (∀ st2 e₁, refresh_access env.refreshResp st = (st2, some e₁) →
        getJson env st url = (st2, .error e₁, [.get url tok, .refreshCall])) ∧
      (∀ st2, refresh_access env.refreshResp st = (st2, none) →
        ∃ tok2, st2.access_token = some tok2 ∧ tok2 ≠ "" ∧
          (∀ t2 d2, env.get 1 url tok2 = (200, t2, d2) →
            getJson env st url =
              (st2, .ok d2, [.get url tok, .refreshCall, .get url tok2])) ∧
          (∀ s2 t2 d2, env.get 1 url tok2 = (s2, t2, d2) → s2 ≠ 200 →
            getJson env st url =
              (st2, .error (.getRetryFailed url s2 (t2.take 200)),
                [.get url tok, .refreshCall, .get url tok2])))) ∧
    ((getJson env st url).2.2.countP Event.isGet ≤ 2 ∧
      (getJson env st url).2.2.countP Event.isRefresh ≤ 1) := by
  have hbody : getJson env st url =
      (let (s1, t1, d1) := env.get 0 url tok
      if s1 = 200 then (st, .ok d1, [.get url tok])
      else if s1 ≠ 401 then
        (st, .error (.getFailed url s1 (t1.take 200)), [.get url tok])
      else
        match refresh_access env.refreshResp st with
        | (st2, some e₁) => (st2, .error e₁, [.get url tok, .refreshCall])
        | (st2, none) =>
          match st2.access_token with
          | none => (st2, .error .noAccessToken, [.get url tok, .refreshCall])
          | some tok2 =>
            if tok2 = "" then (st2, .error .noAccessToken, [.get url tok, .refreshCall])
            else
              let (s2, t2, d2) := env.get 1 url tok2
              if s2 ≠ 200 then
                (st2, .error (.getRetryFailed url s2 (t2.take 200)),
                  [.get url tok, .refreshCall, .get url tok2])
              else (st2, .ok d2, [.get url tok, .refreshCall, .get url tok2])) := by
    simp only [getJson, htok]
    rw [if_neg hne]
  refine ⟨?_, ?_, ?_, ?_⟩
  · intro t d hget
    rw [hbody]
    simp [hget]
  · intro s t d hget hs200 hs401
    rw [hbody]
    simp [hget, hs200, hs401]
  · intro t d hget
    constructor
    · intro st2 e₁ href
      rw [hbody]
      simp [hget, href]
    · intro st2 href
      obtain ⟨tok2, htok2, hne2⟩ := refresh_access_ok_token _ _ _ href
      refine ⟨tok2, htok2, hne2, ?_, ?_⟩
      · intro t2 d2 hget2
        rw [hbody]
        simp [hget, href, htok2, hne2, hget2]
      · intro s2 t2 d2 hget2 hs2
        rw [hbody]
        simp [hget, href, htok2, hne2, hget2, hs2]
  · rw [hbody]
    rcases hget : env.get 0 url tok with ⟨s1, t1, d1⟩
    by_cases h200 : s1 = 200
    · simp [h200, List.countP, List.countP.go, Event.isGet, Event.isRefresh]
    · by_cases h401 : s1 = 401
      · rcases href : refresh_access env.refreshResp st with ⟨st2, err⟩
        cases err with
        | some e₁ =>
          simp [h200, h401, href, List.countP, List.countP.go, Event.isGet, Event.isRefresh]
        | none =>
          cases htk : st2.access_token with
          | none =>
            simp [h200, h401, href, htk, List.countP, List.countP.go,
              Event.isGet, Event.isRefresh]
          | some tok2 =>
            by_cases h2e : tok2 = ""
            · simp [h200, h401, href, htk, h2e, List.countP, List.countP.go,
                Event.isGet, Event.isRefresh]
            · rcases hget2 : env.get 1 url tok2 with ⟨s2, t2, d2⟩
              by_cases hs2 : s2 = 200 <;>
                simp [h200, h401, href, htk, h2e, hget2, hs2, List.countP,
                  List.countP.go, Event.isGet, Event.isRefresh]
      · simp [h200, h401, List.countP, List.countP.go, Event.isGet, Event.isRefresh]

/-- Witness: C1 on a concrete environment — first GET 401, successful
refresh minting the empty-payload token, retry 200 — returns the retried
body after exactly two GETs (the second with the new token) and one
refresh. -/
theorem claim_C1_witness :
    getJson getEnvRetryOk stAuth "u" =
      ({ stAuth with
          access_token := some tokenEmptyPayload
          AccessIssuedAt := some 0
          AccessExpires := some 0
          user_id := Json.null },
        .ok (Json.obj [("ok", Json.num 1)]),
        [.get "u" "a.e30.b", .refreshCall, .get "u" tokenEmptyPayload]) := by
  have h := (claim_C1 getEnvRetryOk stAuth "u" "a.e30.b" rfl (by decide)).2.2.1
    "expired" Json.null rfl
  obtain ⟨tok2, htok2, -, h200, -⟩ := h.2
    ({ stAuth with
        access_token := some tokenEmptyPayload
        AccessIssuedAt := some 0
        AccessExpires := some 0
        user_id := Json.null }) (by rfl)
  have htk : tokenEmptyPayload = tok2 := Option.some.inj (by exact htok2)
  subst htk
  exact h200 "retry-text" (Json.obj [("ok", Json.num 1)]) rfl

/-! ### C2 — the frame effect of `refresh_access` -/

/-- Claim C2 (as stated) is false: a successful refresh whose response
carries no `user_id` does not leave the stored user id unchanged — it
overwrites it with `None` (`self.user_id = data.get("user_id")` runs
unconditionally).  Concretely, a client with user id 42 ends the refresh
with user id `None`. -/
theorem claim_C2_counterexample :
    refresh_access refreshNoUserResp stAuth =
      ({ stAuth with
          access_token := some tokenEmptyPayload
          AccessIssuedAt := some 0
          AccessExpires := some 0
          user_id := Json.null }, none) ∧
    stAuth.user_id = Json.num 42 ∧ Json.null ≠ Json.num 42 :=
  ⟨by rfl, rfl, fun h => Json.noConfusion h⟩

/-- Claim C2 as amended: a successful `refresh_access` replaces the access
token and its issued-at/expiry (recomputed from the new token), leaves
the email, password, refresh token and the refresh token's
issued-at/expiry unchanged, and always overwrites the stored user id with
the response's `user_id` field — which is `None` when the response
carries none. -/
theorem claim_C2 (resp : PostResponse) (st : ClientState) (rt text : String)
    (dataKvs pk : List (String × Json)) (a : String) (ti te : ℚ)
    (hrt : st.refresh_token = some rt) (hrtne : rt ≠ "")
    (hresp : resp = some (200, text, Json.obj dataKvs))
    (hacc : dictGetD dataKvs "access" Json.null = Json.str a) (hane : a ≠ "")
    (hdec : decode_jwt a = some (Json.obj pk))
    (hti : fromtimestamp (dictGetD pk "iat" (Json.num 0)) = some ti)
    (hte : fromtimestamp (dictGetD pk "exp" (Json.num 0)) = some te) :
    refresh_access resp st =
      ({ st with
          access_token := some a
          AccessIssuedAt := some ti
          AccessExpires := some te
          user_id := dictGetD dataKvs "user_id" Json.null }, none) := by
  subst hresp
  simp [refresh_access, hrt, hrtne, hacc, hane, hdec, tokenInstants, payloadFields,
    hti, hte, jsonAsTokenRepr, pyTruthy]

/-- Witness: the amended C2 on the concrete refresh of `stAuth` by a
response without `user_id`. -/
theorem claim_C2_witness :
    refresh_access refreshNoUserResp stAuth =
      ({ stAuth with
          access_token := some tokenEmptyPayload
          AccessIssuedAt := some 0
          AccessExpires := some 0
          user_id := Json.null }, none) :=
  claim_C2 refreshNoUserResp stAuth "r.e30.c" "" [("access", Json.str tokenEmptyPayload)]
    [] tokenEmptyPayload 0 0 rfl (by decide) rfl rfl (by decide) rfl rfl rfl

/-! ### C10 — the token-bookkeeping invariant -/

lemma tokenInstants_eq_some (payload : Json) (kvs : List (String × Json)) (ti te : ℚ)
    (h : tokenInstants payload = (some kvs, some ti, some te)) :
    payload = Json.obj kvs ∧ fromtimestamp (dictGetD kvs "iat" (Json.num 0)) = some ti ∧
      fromtimestamp (dictGetD kvs "exp" (Json.num 0)) = some te := by
  cases payload <;> simp [tokenInstants, payloadFields] at h
  rename_i kvs'
  obtain ⟨h1, h2, h3⟩ := h
  subst h1
  exact ⟨rfl, h2, h3⟩

/-- Claim C10 (as stated) is false: `refresh_access` assigns the new
access token *before* decoding it, so when the provider hands back a
token `decode_jwt` rejects, the client ends the (raising) operation with
`access_token = "bad"` while the issued-at/expiry bookkeeping still holds
the values of the previous token — and `"bad"` has no decodable payload
at all to rebuild them from. -/
theorem claim_C10_counterexample :
    refresh_access refreshBadTokenResp stAuth =
      ({ stAuth with access_token := some "bad" }, some ApiError.jwtDecode) ∧
    decode_jwt "bad" = none ∧
    ({ stAuth with access_token := some "bad" } : ClientState).AccessIssuedAt = some 10 :=
  ⟨by rfl, by rfl, rfl⟩

/-- Claim C10 as amended: after every operation that assigns the access
token — `from_tokens`, `login`, `refresh_access` — and completes without
raising, the stored issued-at/expiry equal the instants built from the
`iat`/`exp` claims (absent claims defaulting to the epoch) of the decoded
payload of exactly the stored token. -/
theorem claim_C10 :
    (∀ a r uid st', from_tokens a r uid = .ok st' → accessInvariant st') ∧
    (∀ resp st st', login resp st = (st', none) → accessInvariant st') ∧
    (∀ resp st st', refresh_access resp st = (st', none) → accessInvariant st') := by
  refine ⟨?_, ?_, ?_⟩
  · intro a r uid st' h
    simp only [from_tokens] at h
    repeat' split at h
    all_goals try (exfalso; simp at h; done)
    rename_i xA payloadA hdecA xtA valA iatA expA heqA xR payloadR hdecR xtR valR iatR expR heqR
    obtain ⟨hobjA, htiA, hteA⟩ := tokenInstants_eq_some payloadA valA iatA expA heqA
    injection h with h1
    subst h1
    exact ⟨a, valA, rfl, hobjA ▸ hdecA, by simp [htiA], by simp [hteA]⟩
  · intro resp st st' h
    simp only [login] at h
    repeat' split at h
    all_goals try (exfalso; simp at h; done)
    all_goals try (exfalso; simp_all [Json.isNull]; done)
    rename_i xA sA haccA xdA payloadA hdecA xtA valA iatA expA heqA xRj sR haccR xdR
      payloadR hdecR xtR valR iatR expR heqR hn1 hn2
    obtain ⟨hobjA, htiA, hteA⟩ := tokenInstants_eq_some payloadA valA iatA expA heqA
    injection h with h1 h2
    subst h1
    refine ⟨sA, valA, ?_, hobjA ▸ hdecA, by simp [htiA], by simp [hteA]⟩
    simp [haccA, jsonAsTokenRepr]
  · intro resp st st' h
    simp only [refresh_access] at h
    repeat' split at h
    all_goals try (exfalso; simp at h; done)
    rename_i xj sA hstr xd payloadA hdecA xt valA iatA expA heqA
    obtain ⟨hobjA, htiA, hteA⟩ := tokenInstants_eq_some payloadA valA iatA expA heqA
    injection h with h1 h2
    subst h1
    refine ⟨sA, valA, ?_, hobjA ▸ hdecA, by simp [htiA], by simp [hteA]⟩
    simp [hstr, jsonAsTokenRepr]

/-- Witness: the amended C10 on a concrete `from_tokens` with the
empty-payload token — both claims are absent, so both instants are the
epoch. -/
theorem claim_C10_witness :
    from_tokens tokenEmptyPayload tokenEmptyPayload Json.null =
      .ok { clientInit none none with
        access_token := some tokenEmptyPayload
        refresh_token := some tokenEmptyPayload
        AccessIssuedAt := some 0
        AccessExpires := some 0
        RefreshIssuedAt := some 0
        RefreshExpires := some 0 } ∧
    accessInvariant { clientInit none none with
      access_token := some tokenEmptyPayload
      refresh_token := some tokenEmptyPayload
      AccessIssuedAt := some 0
      AccessExpires := some 0
      RefreshIssuedAt := some 0
      RefreshExpires := some 0 } :=
  ⟨by rfl, claim_C10.1 tokenEmptyPayload tokenEmptyPayload Json.null _ (by rfl)⟩

end Pstryk
